import Mathlib

/-!
Status widgets of zmk-nice-oled.

A shallow embedding of the widget logic of
`boards/shields/nice_oled/nice_epaper/widgets/{luna.c, modifiers.c, screen.c}`.

Conventions of the embedding:

* `uint8_t` values are natural numbers; where a store into a `uint8_t` can
  truncate, the model reduces modulo `256` explicitly.
* A C condition `if (x & m)` is `x &&& m ≠ 0`.
* The file-scope variables `current_anim_state` and `g_luna_state` are passed
  in and returned explicitly.
* Calls into LVGL are recorded, in program order, as a list of call records.
-/

namespace NiceOled

set_option maxRecDepth 100000

/-! ## luna.c : constants -/

/-- HID lock bit for NumLock (`#define LED_NLCK 0x01`). -/
def LED_NLCK : Nat := 0x01
/-- HID lock bit for CapsLock (`#define LED_CLCK 0x02`). -/
def LED_CLCK : Nat := 0x02
/-- HID lock bit for ScrollLock (`#define LED_SLCK 0x04`). -/
def LED_SLCK : Nat := 0x04

def HID_USAGE_KEY_LEFT_CONTROL : Nat := 0xE0
def HID_USAGE_KEY_LEFT_SHIFT : Nat := 0xE1
def HID_USAGE_KEY_LEFT_ALT : Nat := 0xE2
def HID_USAGE_KEY_LEFT_GUI : Nat := 0xE3
def HID_USAGE_KEY_RIGHT_CONTROL : Nat := 0xE4
def HID_USAGE_KEY_RIGHT_SHIFT : Nat := 0xE5
def HID_USAGE_KEY_RIGHT_ALT : Nat := 0xE6
def HID_USAGE_KEY_RIGHT_GUI : Nat := 0xE7

def MY_MOD_LCTRL : Nat := 1 <<< 0
def MY_MOD_RCTRL : Nat := 1 <<< 1
def MY_MOD_LSHIFT : Nat := 1 <<< 2
def MY_MOD_RSHIFT : Nat := 1 <<< 3
def MY_MOD_LALT : Nat := 1 <<< 4
def MY_MOD_RALT : Nat := 1 <<< 5
def MY_MOD_LGUI : Nat := 1 <<< 6
def MY_MOD_RGUI : Nat := 1 <<< 7

/-- Modelled from the spec: the HID report-mask constant `MOD_LCTL` of the
header `dt-bindings/zmk/modifiers.h`, which `luna.c` and `modifiers.c` include
but which is not among the sources; the value is the ZMK one, `0x01`. -/
def MOD_LCTL : Nat := 0x01
/-- Modelled from the spec: ZMK report-mask constant `MOD_LSFT` (`0x02`),
from the absent header `dt-bindings/zmk/modifiers.h`. -/
def MOD_LSFT : Nat := 0x02
/-- Modelled from the spec: ZMK report-mask constant `MOD_LALT` (`0x04`),
from the absent header `dt-bindings/zmk/modifiers.h`. -/
def MOD_LALT : Nat := 0x04
/-- Modelled from the spec: ZMK report-mask constant `MOD_LGUI` (`0x08`),
from the absent header `dt-bindings/zmk/modifiers.h`. -/
def MOD_LGUI : Nat := 0x08
/-- Modelled from the spec: ZMK report-mask constant `MOD_RCTL` (`0x10`),
from the absent header `dt-bindings/zmk/modifiers.h`. -/
def MOD_RCTL : Nat := 0x10
/-- Modelled from the spec: ZMK report-mask constant `MOD_RSFT` (`0x20`),
from the absent header `dt-bindings/zmk/modifiers.h`. -/
def MOD_RSFT : Nat := 0x20
/-- Modelled from the spec: ZMK report-mask constant `MOD_RALT` (`0x40`),
from the absent header `dt-bindings/zmk/modifiers.h`. -/
def MOD_RALT : Nat := 0x40
/-- Modelled from the spec: ZMK report-mask constant `MOD_RGUI` (`0x80`),
from the absent header `dt-bindings/zmk/modifiers.h`. -/
def MOD_RGUI : Nat := 0x80

/-- Modelled from the spec: the keyboard usage page id `HID_USAGE_KEY` of the
absent ZMK header `zmk/hid.h`; the comment in `get_luna_state` gives `0x07`. -/
def HID_USAGE_KEY : Nat := 0x07

/-- Modelled from the spec: LVGL's `LV_ANIM_REPEAT_INFINITE` (`0xFFFF`), from
the absent header `lvgl.h`; it is only ever passed through to LVGL. -/
def LV_ANIM_REPEAT_INFINITE : Nat := 0xFFFF

/-! ## luna.c : the modifier-bit translator -/

/-- Source: `static inline uint8_t usage_to_mod_bit(uint8_t usage)`. -/
def usage_to_mod_bit (usage : Nat) : Nat :=
  if usage = HID_USAGE_KEY_LEFT_CONTROL then MY_MOD_LCTRL
  else if usage = HID_USAGE_KEY_RIGHT_CONTROL then MY_MOD_RCTRL
  else if usage = HID_USAGE_KEY_LEFT_SHIFT then MY_MOD_LSHIFT
  else if usage = HID_USAGE_KEY_RIGHT_SHIFT then MY_MOD_RSHIFT
  else if usage = HID_USAGE_KEY_LEFT_ALT then MY_MOD_LALT
  else if usage = HID_USAGE_KEY_RIGHT_ALT then MY_MOD_RALT
  else if usage = HID_USAGE_KEY_LEFT_GUI then MY_MOD_LGUI
  else if usage = HID_USAGE_KEY_RIGHT_GUI then MY_MOD_RGUI
  else 0

/-- Source: `static uint8_t build_zmk_mod_bits(uint8_t local_bits)`: the four `if`s run
in sequence, each or-ing a pair of report bits into `zmk_mods`. -/
def build_zmk_mod_bits (local_bits : Nat) : Nat :=
  let zmk_mods := 0
  let zmk_mods :=
    if local_bits &&& (MY_MOD_LSHIFT ||| MY_MOD_RSHIFT) ≠ 0
    then zmk_mods ||| (MOD_LSFT ||| MOD_RSFT) else zmk_mods
  let zmk_mods :=
    if local_bits &&& (MY_MOD_LCTRL ||| MY_MOD_RCTRL) ≠ 0
    then zmk_mods ||| (MOD_LCTL ||| MOD_RCTL) else zmk_mods
  let zmk_mods :=
    if local_bits &&& (MY_MOD_LALT ||| MY_MOD_RALT) ≠ 0
    then zmk_mods ||| (MOD_LALT ||| MOD_RALT) else zmk_mods
  let zmk_mods :=
    if local_bits &&& (MY_MOD_LGUI ||| MY_MOD_RGUI) ≠ 0
    then zmk_mods ||| (MOD_LGUI ||| MOD_RGUI) else zmk_mods
  zmk_mods

/-! ## luna.c : frames and animation state -/

/-- The ten image descriptors declared with `LV_IMG_DECLARE`. -/
inductive Img where
  | dog_sit1_90 | dog_sit2_90
  | dog_walk1_90 | dog_walk2_90
  | dog_run1_90 | dog_run2_90
  | dog_sneak1_90 | dog_sneak2_90
  | dog_bark1_90 | dog_bark2_90
  deriving DecidableEq, Repr

def idle_imgs : List Img := [.dog_sit1_90, .dog_sit2_90]
def slow_imgs : List Img := [.dog_walk1_90, .dog_walk2_90]
def mid_imgs : List Img := [.dog_walk1_90, .dog_walk2_90]
def fast_imgs : List Img := [.dog_run1_90, .dog_run2_90]

def mod_sit : List Img := [.dog_sit1_90, .dog_sit2_90]
def mod_walk : List Img := [.dog_walk1_90, .dog_walk2_90]
def mod_run : List Img := [.dog_run1_90, .dog_run2_90]
def mod_sneak : List Img := [.dog_sneak1_90, .dog_sneak2_90]

def bark_imgs : List Img := [.dog_bark1_90, .dog_bark2_90]

/-- Source: `#define MY_ARRSZ(arr) (sizeof(arr) / sizeof(arr[0]))`. -/
def MY_ARRSZ (arr : List Img) : Nat := arr.length

/-- Source: `enum anim_state`. -/
inductive anim_state where
  | ANIM_NONE | ANIM_IDLE | ANIM_SLOW | ANIM_MID | ANIM_FAST | ANIM_OVERRIDE
  deriving DecidableEq, Repr

/-- Source: `struct luna_state`; each field is a `uint8_t`. -/
structure luna_state where
  wpm : Nat
  local_mod_bits : Nat
  indicators : Nat
  deriving DecidableEq, Repr

/-- A recorded call into LVGL's animated-image API; `obj` is the `lv_obj_t *`
the call is made on. -/
inductive LvCall where
  | lv_animimg_set_src (obj : Nat) (frames : List Img) (num : Nat)
  | lv_animimg_set_duration (obj : Nat) (ms : Nat)
  | lv_animimg_set_repeat_count (obj : Nat) (count : Nat)
  | lv_animimg_start (obj : Nat)
  deriving DecidableEq, Repr

/-- Source: `get_modifier_frames`: the selected frame array together with the value
written to `*count_out`, or `none` for the `NULL` return. -/
def get_modifier_frames (zmk_mods : Nat) : Option (List Img × Nat) :=
  if zmk_mods &&& (MOD_LSFT ||| MOD_RSFT) ≠ 0 then
    some (mod_sneak, MY_ARRSZ mod_sneak)
  else if zmk_mods &&& (MOD_LCTL ||| MOD_RCTL) ≠ 0 then
    some (mod_run, MY_ARRSZ mod_run)
  else if zmk_mods &&& (MOD_LALT ||| MOD_RALT) ≠ 0 then
    some (mod_walk, MY_ARRSZ mod_walk)
  else if zmk_mods &&& (MOD_LGUI ||| MOD_RGUI) ≠ 0 then
    some (mod_sit, MY_ARRSZ mod_sit)
  else none

/-- Source: `static void set_animation(lv_obj_t *animimg, struct luna_state s)`.
Takes the value of `current_anim_state` on entry and returns its value on
exit together with the LVGL calls made, in order. -/
def set_animation (animimg : Nat) (s : luna_state) (current_anim_state : anim_state) :
    anim_state × List LvCall :=
  -- Step 1: Caps/Num/Scroll => bark
  if s.indicators &&& (LED_CLCK ||| LED_NLCK ||| LED_SLCK) ≠ 0 then
    if current_anim_state ≠ .ANIM_OVERRIDE then
      (.ANIM_OVERRIDE,
        [.lv_animimg_set_src animimg bark_imgs 2,
         .lv_animimg_set_duration animimg 200,
         .lv_animimg_set_repeat_count animimg LV_ANIM_REPEAT_INFINITE,
         .lv_animimg_start animimg])
    else (current_anim_state, [])
  else
    -- Step 2: If any real-time mods => override
    let zmk_mods := build_zmk_mod_bits s.local_mod_bits
    match get_modifier_frames zmk_mods with
    | some (frames, frames_count) =>
      if current_anim_state ≠ .ANIM_OVERRIDE then
        (.ANIM_OVERRIDE,
          [.lv_animimg_set_src animimg frames frames_count,
           .lv_animimg_set_duration animimg 200,
           .lv_animimg_set_repeat_count animimg LV_ANIM_REPEAT_INFINITE,
           .lv_animimg_start animimg])
      else (current_anim_state, [])
    | none =>
      -- Step 3: fallback to WPM
      if s.wpm < 15 then
        if current_anim_state ≠ .ANIM_IDLE then
          (.ANIM_IDLE,
            [.lv_animimg_set_src animimg idle_imgs (MY_ARRSZ idle_imgs),
             .lv_animimg_set_duration animimg 960,
             .lv_animimg_set_repeat_count animimg LV_ANIM_REPEAT_INFINITE,
             .lv_animimg_start animimg])
        else (current_anim_state, [])
      else if s.wpm < 30 then
        if current_anim_state ≠ .ANIM_SLOW then
          (.ANIM_SLOW,
            [.lv_animimg_set_src animimg slow_imgs (MY_ARRSZ slow_imgs),
             .lv_animimg_set_duration animimg 200,
             .lv_animimg_set_repeat_count animimg LV_ANIM_REPEAT_INFINITE,
             .lv_animimg_start animimg])
        else (current_anim_state, [])
      else if s.wpm < 70 then
        if current_anim_state ≠ .ANIM_MID then
          (.ANIM_MID,
            [.lv_animimg_set_src animimg mid_imgs (MY_ARRSZ mid_imgs),
             .lv_animimg_set_duration animimg 200,
             .lv_animimg_set_repeat_count animimg LV_ANIM_REPEAT_INFINITE,
             .lv_animimg_start animimg])
        else (current_anim_state, [])
      else
        if current_anim_state ≠ .ANIM_FAST then
          (.ANIM_FAST,
            [.lv_animimg_set_src animimg fast_imgs (MY_ARRSZ fast_imgs),
             .lv_animimg_set_duration animimg 200,
             .lv_animimg_set_repeat_count animimg LV_ANIM_REPEAT_INFINITE,
             .lv_animimg_start animimg])
        else (current_anim_state, [])

/-! ## luna.c : the event aggregator and the dispatch -/

/-- The event handed to `get_luna_state`, as seen through the three `as_zmk_*`
downcasts: a typing-rate change (carrying what `zmk_wpm_get_state()` returns
when the handler runs), a key event (`usage_page`, `keycode`, `state`), a
lock-indicator change (`indicators`), or an event none of the casts accept. -/
inductive zmk_event where
  | wpm_state_changed (wpm_get_state : Nat)
  | keycode_state_changed (usage_page : Nat) (keycode : Nat) (state : Bool)
  | hid_indicators_changed (indicators : Nat)
  | other
  deriving DecidableEq, Repr

/-- Source: `static struct luna_state get_luna_state(const zmk_event_t *eh)`: takes
`g_luna_state` on entry, returns it on exit (which is also the value the C
function returns). Stores into the `uint8_t` fields truncate; the `keycode`
argument is truncated by the `uint8_t` parameter of `usage_to_mod_bit`. -/
def get_luna_state (eh : zmk_event) (g_luna_state : luna_state) : luna_state :=
  match eh with
  | .wpm_state_changed v => { g_luna_state with wpm := v % 256 }
  | .keycode_state_changed usage_page keycode state =>
    if usage_page = HID_USAGE_KEY then
      let bit := usage_to_mod_bit (keycode % 256)
      if bit ≠ 0 then
        if state then
          { g_luna_state with local_mod_bits := (g_luna_state.local_mod_bits ||| bit) % 256 }
        else
          { g_luna_state with
            local_mod_bits := (g_luna_state.local_mod_bits &&& (0xFF ^^^ bit)) % 256 }
      else g_luna_state
    else g_luna_state
  | .hid_indicators_changed indicators => { g_luna_state with indicators := indicators % 256 }
  | .other => g_luna_state

/-- Source: `static void luna_update_cb(struct luna_state s)`: `set_animation` on every
registered widget object, in registration order, threading
`current_anim_state`. -/
def luna_update_cb (widgets : List Nat) (s : luna_state) (current_anim_state : anim_state) :
    anim_state × List LvCall :=
  match widgets with
  | [] => (current_anim_state, [])
  | obj :: rest =>
    let r := set_animation obj s current_anim_state
    let r2 := luna_update_cb rest s r.1
    (r2.1, r.2 ++ r2.2)

/-- The file-scope state of `luna.c`: `g_luna_state` and `current_anim_state`. -/
structure World where
  g_luna_state : luna_state
  current_anim_state : anim_state
  deriving DecidableEq, Repr

/-- The static initialisers: `g_luna_state = {0, 0, 0}` and
`current_anim_state = ANIM_NONE`. -/
def World.init : World := ⟨⟨0, 0, 0⟩, .ANIM_NONE⟩

/-- One delivery of an event by the widget listener: `get_luna_state` computes
the snapshot, `luna_update_cb` is run on it. -/
def deliver (widgets : List Nat) (w : World) (eh : zmk_event) : World × List LvCall :=
  let s := get_luna_state eh w.g_luna_state
  let r := luna_update_cb widgets s w.current_anim_state
  (⟨s, r.1⟩, r.2)

/-- The state after delivering a sequence of events, oldest first. -/
def deliverAll (widgets : List Nat) (w : World) : List zmk_event → World
  | [] => w
  | eh :: rest => deliverAll widgets (deliver widgets w eh).1 rest

/-! ## C strings in fixed-size `char` arrays -/

/-- The C string held in a `char` array: the bytes before the first NUL. -/
def c_str (buf : List Nat) : List Nat := buf.takeWhile (fun b => b ≠ 0)

/-- The C library call `strcat(dest, src)` on the `char` array `dest` (its length is the array
size) with `src` the bytes of a string literal. The copy starts at the first
NUL of `dest` and a NUL is written after it. `none` when `dest` holds no
terminator or the result with its terminator does not fit the array (undefined
behaviour in C). -/
def strcat (dest : List Nat) (src : List Nat) : Option (List Nat) :=
  let n := (c_str dest).length
  if n < dest.length ∧ n + src.length + 1 ≤ dest.length then
    some (c_str dest ++ src ++ [0] ++ dest.drop (n + src.length + 1))
  else none

/-- The bytes of an ASCII string literal. -/
def lit (s : String) : List Nat := s.toList.map Char.toNat

/-- The text of a byte string, read back as characters. -/
def as_text (bytes : List Nat) : String := String.mk (bytes.map Char.ofNat)

/-! ## modifiers.c -/

/-- Source: `struct modifiers_state`; `modifiers` is a `uint8_t`. -/
structure modifiers_state where
  modifiers : Nat
  deriving DecidableEq, Repr

/-- A recorded `lv_label_set_text(label, text)`; `text` is the C string LVGL
reads from the buffer it is handed. -/
inductive LabelCall where
  | lv_label_set_text (label : Nat) (text : List Nat)
  deriving DecidableEq, Repr

/-- Source: `static void set_modifiers_text(lv_obj_t *label, struct modifiers_state state)`:
`char text[8] = {0}`, up to four `strcat`s, then `lv_label_set_text`. `none`
if a `strcat` overruns the buffer. -/
def set_modifiers_text (label : Nat) (state : modifiers_state) : Option (List LabelCall) := do
  let text := List.replicate 8 0
  let text ← if state.modifiers &&& (MOD_LGUI ||| MOD_RGUI) ≠ 0 then strcat text (lit "M")
             else some text
  let text ← if state.modifiers &&& (MOD_LALT ||| MOD_RALT) ≠ 0 then strcat text (lit "A")
             else some text
  let text ← if state.modifiers &&& (MOD_LCTL ||| MOD_RCTL) ≠ 0 then strcat text (lit "C")
             else some text
  let text ← if state.modifiers &&& (MOD_LSFT ||| MOD_RSFT) ≠ 0 then strcat text (lit "S")
             else some text
  some [.lv_label_set_text label (c_str text)]

/-! ## screen.c -/

/-- Modelled from the spec: the fields of `struct status_state` that
`draw_battery` and `draw_canvas` read; the declaration is in an absent header.
`battery` is a `uint8_t` level, `transport` is `selected_endpoint.transport`. -/
structure status_state where
  battery : Nat
  charging : Bool
  transport : Nat
  active_profile_connected : Bool
  active_profile_bonded : Bool
  deriving DecidableEq, Repr

/-- The macros, enumerators and glyph string literals `screen.c` takes from
absent headers: the canvas size, the two enumerators of `enum zmk_transport`
that label the `switch` of `draw_canvas`, and the four LVGL symbol strings
(their bytes, without the terminator). -/
structure ScreenEnv where
  CANVAS_WIDTH : Int
  CANVAS_HEIGHT : Int
  ZMK_TRANSPORT_USB : Nat
  ZMK_TRANSPORT_BLE : Nat
  LV_SYMBOL_USB : List Nat
  LV_SYMBOL_WIFI : List Nat
  LV_SYMBOL_CLOSE : List Nat
  LV_SYMBOL_SETTINGS : List Nat
  deriving DecidableEq, Repr

/-- The two colours handed to `init_rect_dsc` / `init_label_dsc`. -/
inductive Color where
  | LVGL_BACKGROUND | LVGL_FOREGROUND
  deriving DecidableEq, Repr

/-- A recorded drawing call of `screen.c`. A rectangle descriptor is recorded
by the colour it was initialised with; the label descriptor of `draw_canvas`
is always foreground, `lv_font_montserrat_16`, right-aligned. The last three
constructors are the calls to routines defined outside `screen.c`. -/
inductive CanvasCall where
  | lv_canvas_draw_rect (x y w h : Int) (dsc : Color)
  | lv_canvas_draw_img_bolt (x y : Int)
  | lv_canvas_draw_text (x y max_w : Int) (txt : List Nat)
  | draw_profile_status
  | draw_layer_status
  | rotate_canvas
  deriving DecidableEq, Repr

/-- Source: `void draw_battery(lv_obj_t *canvas, const struct status_state *state)`. -/
def draw_battery (state : status_state) : List CanvasCall :=
  [ .lv_canvas_draw_rect 0 2 29 12 .LVGL_FOREGROUND,
    .lv_canvas_draw_rect 1 3 27 10 .LVGL_BACKGROUND,
    .lv_canvas_draw_rect 2 4 (((state.battery + 2) / 4 : Nat) : Int) 8 .LVGL_FOREGROUND,
    .lv_canvas_draw_rect 30 5 3 6 .LVGL_FOREGROUND,
    .lv_canvas_draw_rect 31 6 1 4 .LVGL_BACKGROUND ]
  ++ (if state.charging then [.lv_canvas_draw_img_bolt 9 (-1)] else [])

/-- Source: `static void draw_canvas(...)`. `char output_text[10] = {0}` is filled by
the `switch` on the transport; `none` if a `strcat` overruns it. -/
def draw_canvas (env : ScreenEnv) (state : status_state) : Option (List CanvasCall) := do
  let output_text := List.replicate 10 0
  let output_text ←
    if state.transport = env.ZMK_TRANSPORT_USB then
      strcat output_text env.LV_SYMBOL_USB
    else if state.transport = env.ZMK_TRANSPORT_BLE then
      if state.active_profile_bonded then
        strcat output_text
          (if state.active_profile_connected then env.LV_SYMBOL_WIFI else env.LV_SYMBOL_CLOSE)
      else
        strcat output_text env.LV_SYMBOL_SETTINGS
    else some output_text
  some ([.lv_canvas_draw_rect 0 0 env.CANVAS_WIDTH env.CANVAS_HEIGHT .LVGL_BACKGROUND]
    ++ draw_battery state
    ++ [.lv_canvas_draw_text 0 0 64 (c_str output_text),
        .draw_profile_status, .draw_layer_status, .rotate_canvas])

/-! ## Vocabulary of the specification -/

/-- The specification's "cycle start" on widget object `obj`: the source array
and its frame count are set, then the frame duration, then infinite repeat,
then the animation is started. -/
def cycle_start (obj : Nat) (frames : List Img) (ms : Nat) : List LvCall :=
  [.lv_animimg_set_src obj frames frames.length,
   .lv_animimg_set_duration obj ms,
   .lv_animimg_set_repeat_count obj LV_ANIM_REPEAT_INFINITE,
   .lv_animimg_start obj]

/-- The specification's 2-frame "sit" cycle. -/
def sit_cycle : List Img := [.dog_sit1_90, .dog_sit2_90]
/-- The specification's 2-frame "walk" cycle. -/
def walk_cycle : List Img := [.dog_walk1_90, .dog_walk2_90]
/-- The specification's 2-frame "run" cycle. -/
def run_cycle : List Img := [.dog_run1_90, .dog_run2_90]
/-- The specification's 2-frame "sneak" cycle. -/
def sneak_cycle : List Img := [.dog_sneak1_90, .dog_sneak2_90]
/-- The specification's 2-frame "bark" cycle. -/
def bark_cycle : List Img := [.dog_bark1_90, .dog_bark2_90]

/-- The specification's lock condition: at least one of the capslock (0x02),
numlock (0x01), scrolllock (0x04) bits of the indicator value is set. -/
def lock_active (indicators : Nat) : Prop :=
  indicators &&& 0x02 ≠ 0 ∨ indicators &&& 0x01 ≠ 0 ∨ indicators &&& 0x04 ≠ 0

instance (indicators : Nat) : Decidable (lock_active indicators) := by
  unfold lock_active; infer_instance

/-- The specification's rate bucket: boundaries 15 / 30 / 70, lower bound
inclusive, upper bound exclusive. -/
def rate_bucket (r : Nat) : anim_state :=
  if r < 15 then .ANIM_IDLE
  else if r < 30 then .ANIM_SLOW
  else if r < 70 then .ANIM_MID
  else .ANIM_FAST

/-- The specification's policy label of a snapshot: Override if a lock bit or
any modifier bit is set, otherwise the rate bucket. -/
def policy_label (s : luna_state) : anim_state :=
  if lock_active s.indicators ∨ s.local_mod_bits ≠ 0 then .ANIM_OVERRIDE
  else rate_bucket s.wpm

/-- Left or right shift is held, in the local modifier bitset. -/
def shift_held (b : Nat) : Prop := b &&& MY_MOD_LSHIFT ≠ 0 ∨ b &&& MY_MOD_RSHIFT ≠ 0
/-- Left or right control is held, in the local modifier bitset. -/
def ctrl_held (b : Nat) : Prop := b &&& MY_MOD_LCTRL ≠ 0 ∨ b &&& MY_MOD_RCTRL ≠ 0
/-- Left or right alt is held, in the local modifier bitset. -/
def alt_held (b : Nat) : Prop := b &&& MY_MOD_LALT ≠ 0 ∨ b &&& MY_MOD_RALT ≠ 0
/-- Left or right gui is held, in the local modifier bitset. -/
def gui_held (b : Nat) : Prop := b &&& MY_MOD_LGUI ≠ 0 ∨ b &&& MY_MOD_RGUI ≠ 0

instance (b : Nat) : Decidable (shift_held b) := by unfold shift_held; infer_instance
instance (b : Nat) : Decidable (ctrl_held b) := by unfold ctrl_held; infer_instance
instance (b : Nat) : Decidable (alt_held b) := by unfold alt_held; infer_instance
instance (b : Nat) : Decidable (gui_held b) := by unfold gui_held; infer_instance

/-- The record of a run: for each event, oldest first, the label after its
delivery and the LVGL calls its delivery made. -/
def run_trace (widgets : List Nat) (w : World) : List zmk_event → List (anim_state × List LvCall)
  | [] => []
  | eh :: rest =>
    let r := deliver widgets w eh
    (r.1.current_anim_state, r.2) :: run_trace widgets r.1 rest

/-- A left or right GUI bit is set in a HID modifier-report mask. -/
def gui_reported (m : Nat) : Prop := m &&& MOD_LGUI ≠ 0 ∨ m &&& MOD_RGUI ≠ 0
/-- A left or right ALT bit is set in a HID modifier-report mask. -/
def alt_reported (m : Nat) : Prop := m &&& MOD_LALT ≠ 0 ∨ m &&& MOD_RALT ≠ 0
/-- A left or right CTRL bit is set in a HID modifier-report mask. -/
def ctrl_reported (m : Nat) : Prop := m &&& MOD_LCTL ≠ 0 ∨ m &&& MOD_RCTL ≠ 0
/-- A left or right SHIFT bit is set in a HID modifier-report mask. -/
def shift_reported (m : Nat) : Prop := m &&& MOD_LSFT ≠ 0 ∨ m &&& MOD_RSFT ≠ 0

instance (m : Nat) : Decidable (gui_reported m) := by unfold gui_reported; infer_instance
instance (m : Nat) : Decidable (alt_reported m) := by unfold alt_reported; infer_instance
instance (m : Nat) : Decidable (ctrl_reported m) := by unfold ctrl_reported; infer_instance
instance (m : Nat) : Decidable (shift_reported m) := by unfold shift_reported; infer_instance

/-- The specification's letter code of a report mask: the subsequence of
"MACS" keeping M for GUI, A for ALT, C for CTRL, S for SHIFT. -/
def letter_code (m : Nat) : String :=
  String.mk ("MACS".toList.filter fun c =>
    decide ((c = 'M' ∧ gui_reported m) ∨ (c = 'A' ∧ alt_reported m) ∨
      (c = 'C' ∧ ctrl_reported m) ∨ (c = 'S' ∧ shift_reported m)))

/-- The x origin and the width of the battery fill bar: the third rectangle
`draw_battery` draws. -/
def fill_bar (st : status_state) : Int × Int :=
  match ((draw_battery st)[2]? : Option CanvasCall) with
  | some (CanvasCall.lv_canvas_draw_rect x _ w _ _) => (x, w)
  | _ => (0, 0)

/-- The x origin and the width of the battery inner track: the second rectangle
`draw_battery` draws. -/
def inner_track (st : status_state) : Int × Int :=
  match ((draw_battery st)[1]? : Option CanvasCall) with
  | some (CanvasCall.lv_canvas_draw_rect x _ w _ _) => (x, w)
  | _ => (0, 0)

/-- A status snapshot with the given battery level, not charging, transport 0,
no profile flags. -/
def at_level (level : Nat) : status_state := ⟨level, false, 0, false, false⟩

/-- The texts of the `lv_canvas_draw_text` calls of a drawing, in order;
`none` if the drawing routine overran a buffer. -/
def drawn_texts (calls : Option (List CanvasCall)) : Option (List (List Nat)) :=
  calls.map fun cs => cs.filterMap fun c =>
    match c with
    | .lv_canvas_draw_text _ _ _ txt => some txt
    | _ => none

/-- A glyph string literal is usable in `draw_canvas`: it has no embedded NUL
and, with its terminator, fits `char output_text[10]`. -/
def glyph_fits (g : List Nat) : Prop := g.length + 1 ≤ 10 ∧ ∀ b ∈ g, b ≠ 0

instance (g : List Nat) : Decidable (glyph_fits g) := by unfold glyph_fits; infer_instance

/-- The environment is one `screen.c` compiles and runs in: the two `case`
labels are distinct enumerators and all four glyph literals are usable. -/
def screen_env_ok (env : ScreenEnv) : Prop :=
  env.ZMK_TRANSPORT_USB ≠ env.ZMK_TRANSPORT_BLE ∧
  glyph_fits env.LV_SYMBOL_USB ∧ glyph_fits env.LV_SYMBOL_WIFI ∧
  glyph_fits env.LV_SYMBOL_CLOSE ∧ glyph_fits env.LV_SYMBOL_SETTINGS

instance (env : ScreenEnv) : Decidable (screen_env_ok env) := by unfold screen_env_ok; infer_instance

/-- An environment as in a ZMK build for this shield: a 68 x 160 canvas, the
transport enumerators 0 (USB) and 1 (BLE), and LVGL's UTF-8 encodings of the
USB, wifi, close and settings symbols. -/
def lvgl_env : ScreenEnv :=
  { CANVAS_WIDTH := 68, CANVAS_HEIGHT := 160,
    ZMK_TRANSPORT_USB := 0, ZMK_TRANSPORT_BLE := 1,
    LV_SYMBOL_USB := [0xEF, 0x8A, 0x87],
    LV_SYMBOL_WIFI := [0xEF, 0x87, 0xAB],
    LV_SYMBOL_CLOSE := [0xEF, 0x80, 0x8D],
    LV_SYMBOL_SETTINGS := [0xEF, 0x80, 0x93] }

/-- The widget object a recorded LVGL call is made on. -/
def call_obj : LvCall → Nat
  | .lv_animimg_set_src obj _ _ => obj
  | .lv_animimg_set_duration obj _ => obj
  | .lv_animimg_set_repeat_count obj _ => obj
  | .lv_animimg_start obj => obj

/-- The cycle playing on widget `obj` after a history of LVGL calls: the frames
of the last `lv_animimg_set_src` made on it, if any. -/
def playing_frames (obj : Nat) (history : List LvCall) : Option (List Img) :=
  history.foldl
    (fun acc c =>
      match c with
      | .lv_animimg_set_src o frames _ => if o = obj then some frames else acc
      | _ => acc)
    none

/-- All LVGL calls of a run, in order. -/
def run_calls (widgets : List Nat) (w : World) (evs : List zmk_event) : List LvCall :=
  ((run_trace widgets w evs).map fun r => r.2).flatten

/-- A sequence of update passes: `luna_update_cb` on each snapshot in turn,
threading `current_anim_state`; returns the final label and all calls made. -/
def update_passes (widgets : List Nat) (cur : anim_state) :
    List luna_state → anim_state × List LvCall
  | [] => (cur, [])
  | s :: rest =>
    let r := luna_update_cb widgets s cur
    let r2 := update_passes widgets r.1 rest
    (r2.1, r.2 ++ r2.2)

/-- The snapshot after feeding a sequence of events, oldest first, to
`get_luna_state`. -/
def feed (g : luna_state) : List zmk_event → luna_state
  | [] => g
  | eh :: rest => feed (get_luna_state eh g) rest

/-- The eight recognised modifier usage ids. -/
def modifier_usages : List Nat :=
  [HID_USAGE_KEY_LEFT_CONTROL, HID_USAGE_KEY_LEFT_SHIFT, HID_USAGE_KEY_LEFT_ALT,
   HID_USAGE_KEY_LEFT_GUI, HID_USAGE_KEY_RIGHT_CONTROL, HID_USAGE_KEY_RIGHT_SHIFT,
   HID_USAGE_KEY_RIGHT_ALT, HID_USAGE_KEY_RIGHT_GUI]

/-- The pressed flag of the most recent key event for the key with usage id
`usage` on the keyboard usage page, in a sequence given oldest first; `none`
if there is no such event. -/
def last_key_event (usage : Nat) : List zmk_event → Option Bool
  | [] => none
  | eh :: rest =>
    match last_key_event usage rest with
    | some pressed => some pressed
    | none =>
      match eh with
      | .keycode_state_changed usage_page keycode state =>
        if usage_page = HID_USAGE_KEY ∧ keycode = usage then some state else none
      | _ => none

/-- The specification's tracking property of a sequence of events fed from the
initial empty state: the bit of each recognised modifier key is set exactly
when the most recent key event for that key on the keyboard usage page was a
press. -/
def key_tracking_holds (evs : List zmk_event) : Prop :=
  ∀ u ∈ modifier_usages,
    ((feed ⟨0, 0, 0⟩ evs).local_mod_bits &&& usage_to_mod_bit u ≠ 0
      ↔ last_key_event u evs = some true)

instance (evs : List zmk_event) : Decidable (key_tracking_holds evs) := by
  unfold key_tracking_holds; infer_instance

/-- The usage id carried by the event, if it is a key event, fits 8 bits. -/
def keycode_8bit : zmk_event → Prop
  | .keycode_state_changed _ keycode _ => keycode < 256
  | _ => True

/-! ## Bit-level helper lemmas -/

/-- Masking with an 8-bit mask only looks at the low byte. -/
theorem land_low_byte (x m : Nat) (hm : m < 256) : x &&& m = (x % 256) &&& m := by
  have h255 : (255 : Nat) &&& m = m := by
    have : ∀ k < 256, (255 : Nat) &&& k = k := by decide
    exact this m hm
  have hx : x &&& (2 ^ 8 - 1) = x % 2 ^ 8 := Nat.and_pow_two_sub_one_eq_mod x 8
  norm_num at hx
  calc x &&& m = x &&& (255 &&& m) := by rw [h255]
    _ = (x &&& 255) &&& m := (Nat.and_assoc x 255 m).symm
    _ = (x % 256) &&& m := by rw [hx]

/-- The lock test of `set_animation` is the specification's lock condition. -/
theorem lock_test_iff (ind : Nat) :
    ind &&& (LED_CLCK ||| LED_NLCK ||| LED_SLCK) ≠ 0 ↔ lock_active ind := by
  have key : ∀ y < 256, (y &&& (LED_CLCK ||| LED_NLCK ||| LED_SLCK) ≠ 0 ↔ lock_active y) := by
    decide
  have h := key (ind % 256) (Nat.mod_lt _ (by norm_num))
  unfold lock_active at h ⊢
  rw [land_low_byte ind (LED_CLCK ||| LED_NLCK ||| LED_SLCK) (by decide),
    land_low_byte ind 0x02 (by norm_num), land_low_byte ind 0x01 (by norm_num),
    land_low_byte ind 0x04 (by norm_num)]
  exact h

/-- With no modifier bit there is no modifier override. -/
theorem no_mods_no_frames : get_modifier_frames (build_zmk_mod_bits 0) = none := by
  decide

/-- C1: with no lock bit and an empty modifier bitset, `set_animation` called
with a label different from the target sets Idle and starts the sit cycle at
960 ms for `r < 15`, Slow with walk at 200 ms for `15 ≤ r < 30`, Mid with walk
at 200 ms for `30 ≤ r < 70`, Fast with run at 200 ms for `r ≥ 70`; the label
after the call is the rate bucket of `r`, the same for every entry label and
every lock-free indicator value, and it is never None or Override. -/
theorem C1_rate_bucket_selects_cycle (animimg r ind : Nat) (cur : anim_state)
    (hlock : ¬ lock_active ind) :
    (r < 15 → cur ≠ .ANIM_IDLE →
      set_animation animimg ⟨r, 0, ind⟩ cur
        = (.ANIM_IDLE, cycle_start animimg sit_cycle 960)) ∧
    (15 ≤ r → r < 30 → cur ≠ .ANIM_SLOW →
      set_animation animimg ⟨r, 0, ind⟩ cur
        = (.ANIM_SLOW, cycle_start animimg walk_cycle 200)) ∧
    (30 ≤ r → r < 70 → cur ≠ .ANIM_MID →
      set_animation animimg ⟨r, 0, ind⟩ cur
        = (.ANIM_MID, cycle_start animimg walk_cycle 200)) ∧
    (70 ≤ r → cur ≠ .ANIM_FAST →
      set_animation animimg ⟨r, 0, ind⟩ cur
        = (.ANIM_FAST, cycle_start animimg run_cycle 200)) ∧
    (set_animation animimg ⟨r, 0, ind⟩ cur).1 = rate_bucket r ∧
    (∀ (obj2 ind2 : Nat) (cur2 : anim_state), ¬ lock_active ind2 →
      (set_animation obj2 ⟨r, 0, ind2⟩ cur2).1 = (set_animation animimg ⟨r, 0, ind⟩ cur).1) ∧
    rate_bucket r ≠ .ANIM_NONE ∧ rate_bucket r ≠ .ANIM_OVERRIDE := by
  have hstep : ∀ (o i : Nat) (c : anim_state), ¬ lock_active i →
      set_animation o ⟨r, 0, i⟩ c =
        if r < 15 then
          if c ≠ .ANIM_IDLE then (.ANIM_IDLE, cycle_start o sit_cycle 960) else (c, [])
        else if r < 30 then
          if c ≠ .ANIM_SLOW then (.ANIM_SLOW, cycle_start o walk_cycle 200) else (c, [])
        else if r < 70 then
          if c ≠ .ANIM_MID then (.ANIM_MID, cycle_start o walk_cycle 200) else (c, [])
        else
          if c ≠ .ANIM_FAST then (.ANIM_FAST, cycle_start o run_cycle 200) else (c, []) := by
    intro o i c hi
    have h1 : ¬ (i &&& (LED_CLCK ||| LED_NLCK ||| LED_SLCK) ≠ 0) := fun h =>
      hi ((lock_test_iff i).1 h)
    unfold set_animation
    simp only [h1, if_false, no_mods_no_frames]
    rfl
  have hlabel : ∀ (o i : Nat) (c : anim_state), ¬ lock_active i →
      (set_animation o ⟨r, 0, i⟩ c).1 = rate_bucket r := by
    intro o i c hi
    rw [hstep o i c hi]
    unfold rate_bucket
    split_ifs <;> simp_all
  refine ⟨?_, ?_, ?_, ?_, hlabel _ _ _ hlock, ?_, ?_, ?_⟩
  · intro h1 h2
    rw [hstep _ _ _ hlock]; simp [h1, h2]
  · intro h0 h1 h2
    have : ¬ r < 15 := by omega
    rw [hstep _ _ _ hlock]; simp [this, h1, h2]
  · intro h0 h1 h2
    have : ¬ r < 15 := by omega
    have : ¬ r < 30 := by omega
    rw [hstep _ _ _ hlock]; simp [*]
  · intro h0 h2
    have : ¬ r < 15 := by omega
    have : ¬ r < 30 := by omega
    have : ¬ r < 70 := by omega
    rw [hstep _ _ _ hlock]; simp [*]
  · intro o2 i2 c2 h2
    rw [hlabel _ _ _ h2, hlabel _ _ _ hlock]
  · unfold rate_bucket; split_ifs <;> simp
  · unfold rate_bucket; split_ifs <;> simp

/-- Witness for C1: rate 5 from the initial label starts the sit cycle. -/
theorem C1_rate_bucket_selects_cycle_witness :
    set_animation 0 ⟨5, 0, 0⟩ .ANIM_NONE = (.ANIM_IDLE, cycle_start 0 sit_cycle 960) :=
  (C1_rate_bucket_selects_cycle 0 5 0 .ANIM_NONE (by decide)).1 (by decide) (by decide)

/-- A bitwise or is zero only when both operands are. -/
theorem lor_eq_zero (x y : Nat) : x ||| y = 0 ↔ x = 0 ∧ y = 0 := by
  constructor
  · intro h
    have hb : ∀ i, (x.testBit i || y.testBit i) = false := by
      intro i
      rw [← Nat.testBit_or, h]
      simp
    constructor <;> apply Nat.eq_of_testBit_eq <;> intro i <;> have := hb i <;> simp_all
  · rintro ⟨rfl, rfl⟩
    rfl

/-- Testing against the union of two masks tests either mask. -/
theorem pair_test_iff (b l r : Nat) : b &&& (l ||| r) ≠ 0 ↔ (b &&& l ≠ 0 ∨ b &&& r ≠ 0) := by
  rw [Nat.and_or_distrib_left, Ne, lor_eq_zero]
  tauto

/-- The report mask built from a local bitset, pair by pair. -/
theorem build_zmk_mod_bits_eq (b : Nat) :
    build_zmk_mod_bits b =
      (if shift_held b then 0x22 else 0) ||| (if ctrl_held b then 0x11 else 0)
        ||| (if alt_held b then 0x44 else 0) ||| (if gui_held b then 0x88 else 0) := by
  have e1 : (b &&& (MY_MOD_LSHIFT ||| MY_MOD_RSHIFT) ≠ 0) = shift_held b :=
    propext (pair_test_iff b _ _)
  have e2 : (b &&& (MY_MOD_LCTRL ||| MY_MOD_RCTRL) ≠ 0) = ctrl_held b :=
    propext (pair_test_iff b _ _)
  have e3 : (b &&& (MY_MOD_LALT ||| MY_MOD_RALT) ≠ 0) = alt_held b :=
    propext (pair_test_iff b _ _)
  have e4 : (b &&& (MY_MOD_LGUI ||| MY_MOD_RGUI) ≠ 0) = gui_held b :=
    propext (pair_test_iff b _ _)
  unfold build_zmk_mod_bits
  simp only [e1, e2, e3, e4]
  by_cases h1 : shift_held b <;> by_cases h2 : ctrl_held b <;> by_cases h3 : alt_held b <;>
    by_cases h4 : gui_held b <;> simp only [h1, h2, h3, h4, if_true, if_false] <;> decide

/-- The frames `set_animation` gets for a local bitset: the first held pair in
the order shift, control, alt, gui decides. -/
theorem modifier_frames_eq (b : Nat) :
    get_modifier_frames (build_zmk_mod_bits b) =
      if shift_held b then some (mod_sneak, 2)
      else if ctrl_held b then some (mod_run, 2)
      else if alt_held b then some (mod_walk, 2)
      else if gui_held b then some (mod_sit, 2)
      else none := by
  rw [build_zmk_mod_bits_eq]
  by_cases h1 : shift_held b <;> by_cases h2 : ctrl_held b <;> by_cases h3 : alt_held b <;>
    by_cases h4 : gui_held b <;> simp only [h1, h2, h3, h4, if_true, if_false] <;> decide

/-- C2: whenever a capslock / numlock / scrolllock bit is set, whatever the
rate and the modifier bits, the label after `set_animation` is Override, the
only cycle start the call can issue is the bark cycle at 200 ms, and it does
issue it from every label other than Override (and nothing from Override). -/
theorem C2_lock_selects_bark (animimg : Nat) (s : luna_state) (cur : anim_state)
    (hlock : lock_active s.indicators) :
    (set_animation animimg s cur).1 = .ANIM_OVERRIDE ∧
    ((set_animation animimg s cur).2 = [] ∨
      (set_animation animimg s cur).2 = cycle_start animimg bark_cycle 200) ∧
    (cur ≠ .ANIM_OVERRIDE →
      (set_animation animimg s cur).2 = cycle_start animimg bark_cycle 200) ∧
    (∀ rate mods : Nat,
      set_animation animimg ⟨rate, mods, s.indicators⟩ cur = set_animation animimg s cur) := by
  have h1 : s.indicators &&& (LED_CLCK ||| LED_NLCK ||| LED_SLCK) ≠ 0 :=
    (lock_test_iff s.indicators).2 hlock
  have hstep : ∀ t : luna_state, t.indicators = s.indicators →
      set_animation animimg t cur =
        if cur ≠ .ANIM_OVERRIDE then (.ANIM_OVERRIDE, cycle_start animimg bark_cycle 200)
        else (cur, []) := by
    intro t ht
    unfold set_animation
    rw [ht, if_pos h1]
    rfl
  rw [hstep s rfl]
  refine ⟨?_, ?_, ?_, ?_⟩
  · by_cases hc : cur = .ANIM_OVERRIDE <;> simp [hc]
  · by_cases hc : cur = .ANIM_OVERRIDE <;> simp [hc]
  · intro hc
    simp [hc]
  · intro rate mods
    rw [hstep ⟨rate, mods, s.indicators⟩ rfl]

/-- Witness for C2: capslock with shift held at rate 80, from Idle. -/
theorem C2_lock_selects_bark_witness :
    (set_animation 0 ⟨80, 4, 2⟩ .ANIM_IDLE).1 = .ANIM_OVERRIDE ∧
    (set_animation 0 ⟨80, 4, 2⟩ .ANIM_IDLE).2 = cycle_start 0 bark_cycle 200 :=
  ⟨(C2_lock_selects_bark 0 ⟨80, 4, 2⟩ .ANIM_IDLE (by decide)).1,
   (C2_lock_selects_bark 0 ⟨80, 4, 2⟩ .ANIM_IDLE (by decide)).2.2.1 (by decide)⟩

/-- C3: with no lock bit set and a current label other than Override, whatever
the rate, `set_animation` sets Override and starts, at 200 ms, sneak if a shift
bit is held, else run if a control bit is held, else walk if an alt bit is
held, else sit if a gui bit is held; in particular shift together with control
starts sneak. -/
theorem C3_modifier_priority (animimg : Nat) (s : luna_state) (cur : anim_state)
    (hlock : ¬ lock_active s.indicators) (hcur : cur ≠ .ANIM_OVERRIDE) :
    (shift_held s.local_mod_bits →
      set_animation animimg s cur = (.ANIM_OVERRIDE, cycle_start animimg sneak_cycle 200)) ∧
    (¬ shift_held s.local_mod_bits → ctrl_held s.local_mod_bits →
      set_animation animimg s cur = (.ANIM_OVERRIDE, cycle_start animimg run_cycle 200)) ∧
    (¬ shift_held s.local_mod_bits → ¬ ctrl_held s.local_mod_bits →
      alt_held s.local_mod_bits →
      set_animation animimg s cur = (.ANIM_OVERRIDE, cycle_start animimg walk_cycle 200)) ∧
    (¬ shift_held s.local_mod_bits → ¬ ctrl_held s.local_mod_bits →
      ¬ alt_held s.local_mod_bits → gui_held s.local_mod_bits →
      set_animation animimg s cur = (.ANIM_OVERRIDE, cycle_start animimg sit_cycle 200)) ∧
    (shift_held s.local_mod_bits ∧ ctrl_held s.local_mod_bits →
      (set_animation animimg s cur).2 = cycle_start animimg sneak_cycle 200) := by
  have h1 : ¬ (s.indicators &&& (LED_CLCK ||| LED_NLCK ||| LED_SLCK) ≠ 0) := fun h =>
    hlock ((lock_test_iff s.indicators).1 h)
  have hstep : ∀ fr : List Img × Nat,
      get_modifier_frames (build_zmk_mod_bits s.local_mod_bits) = some fr →
      set_animation animimg s cur =
        (.ANIM_OVERRIDE,
          [.lv_animimg_set_src animimg fr.1 fr.2, .lv_animimg_set_duration animimg 200,
           .lv_animimg_set_repeat_count animimg LV_ANIM_REPEAT_INFINITE,
           .lv_animimg_start animimg]) := by
    intro fr hfr
    unfold set_animation
    simp only [h1, if_false, hfr, hcur, ne_eq, not_false_eq_true, if_true]
  have hsneak : shift_held s.local_mod_bits →
      set_animation animimg s cur = (.ANIM_OVERRIDE, cycle_start animimg sneak_cycle 200) := by
    intro hs
    rw [hstep (mod_sneak, 2) (by rw [modifier_frames_eq, if_pos hs])]
    rfl
  refine ⟨hsneak, ?_, ?_, ?_, ?_⟩
  · intro hs hc
    rw [hstep (mod_run, 2) (by rw [modifier_frames_eq, if_neg hs, if_pos hc])]
    rfl
  · intro hs hc ha
    rw [hstep (mod_walk, 2) (by rw [modifier_frames_eq, if_neg hs, if_neg hc, if_pos ha])]
    rfl
  · intro hs hc ha hg
    rw [hstep (mod_sit, 2)
      (by rw [modifier_frames_eq, if_neg hs, if_neg hc, if_neg ha, if_pos hg])]
    rfl
  · intro hsc
    rw [hsneak hsc.1]

/-- Witness for C3: right shift and left control held at rate 80, from Fast. -/
theorem C3_modifier_priority_witness :
    set_animation 0 ⟨80, 9, 0⟩ .ANIM_FAST = (.ANIM_OVERRIDE, cycle_start 0 sneak_cycle 200) :=
  (C3_modifier_priority 0 ⟨80, 9, 0⟩ .ANIM_FAST (by decide) (by decide)).1 (by decide)

/-- An 8-bit local bitset is non-empty exactly when some pair is held. -/
theorem some_pair_held_iff (b : Nat) (hb : b < 256) :
    b ≠ 0 ↔ (shift_held b ∨ ctrl_held b ∨ alt_held b ∨ gui_held b) := by
  have key : ∀ y < 256, (y ≠ 0 ↔ (shift_held y ∨ ctrl_held y ∨ alt_held y ∨ gui_held y)) := by
    decide
  exact key b hb

/-- The shape of every `set_animation` call: the snapshot alone fixes a target
label and a cycle; the call starts that cycle and stores the target when the
entry label differs from it, and does nothing otherwise. For an 8-bit modifier
bitset the target is the policy label. -/
theorem set_animation_shape (s : luna_state) :
    ∃ (target : anim_state) (frames : List Img) (ms : Nat),
      (∀ (obj : Nat) (cur : anim_state),
        set_animation obj s cur =
          if cur ≠ target then (target, cycle_start obj frames ms) else (cur, [])) ∧
      (s.local_mod_bits < 256 → target = policy_label s) ∧
      ((lock_active s.indicators ∨ shift_held s.local_mod_bits ∨ ctrl_held s.local_mod_bits ∨
          alt_held s.local_mod_bits ∨ gui_held s.local_mod_bits) → target = .ANIM_OVERRIDE) ∧
      target ≠ .ANIM_NONE := by
  by_cases hl : lock_active s.indicators
  · refine ⟨.ANIM_OVERRIDE, bark_cycle, 200, ?_, ?_, ?_, by decide⟩
    · intro obj cur
      unfold set_animation
      rw [if_pos ((lock_test_iff _).2 hl)]
      rfl
    · intro _
      simp [policy_label, hl]
    · intro _
      rfl
  · have h1 : ¬ (s.indicators &&& (LED_CLCK ||| LED_NLCK ||| LED_SLCK) ≠ 0) := fun h =>
      hl ((lock_test_iff s.indicators).1 h)
    have hover : ∀ fr : List Img × Nat,
        get_modifier_frames (build_zmk_mod_bits s.local_mod_bits) = some fr →
        ∀ (obj : Nat) (cur : anim_state), set_animation obj s cur =
          if cur ≠ .ANIM_OVERRIDE then
            (.ANIM_OVERRIDE,
              [.lv_animimg_set_src obj fr.1 fr.2, .lv_animimg_set_duration obj 200,
               .lv_animimg_set_repeat_count obj LV_ANIM_REPEAT_INFINITE,
               .lv_animimg_start obj])
          else (cur, []) := by
      intro fr hfr obj cur
      unfold set_animation
      simp only [h1, if_false, hfr]
    have hpol : ∀ b : Nat, b < 256 →
        (shift_held b ∨ ctrl_held b ∨ alt_held b ∨ gui_held b) →
        s.local_mod_bits = b → .ANIM_OVERRIDE = policy_label s := by
      intro b hb hp hs
      have : s.local_mod_bits ≠ 0 := by
        rw [hs]
        exact (some_pair_held_iff b hb).2 hp
      simp [policy_label, this]
    by_cases hs : shift_held s.local_mod_bits
    · refine ⟨.ANIM_OVERRIDE, sneak_cycle, 200, ?_, ?_, ?_, by decide⟩
      · exact hover (mod_sneak, 2) (by rw [modifier_frames_eq, if_pos hs])
      · exact fun hb => hpol _ hb (Or.inl hs) rfl
      · exact fun _ => rfl
    by_cases hc : ctrl_held s.local_mod_bits
    · refine ⟨.ANIM_OVERRIDE, run_cycle, 200, ?_, ?_, ?_, by decide⟩
      · exact hover (mod_run, 2) (by rw [modifier_frames_eq, if_neg hs, if_pos hc])
      · exact fun hb => hpol _ hb (Or.inr (Or.inl hc)) rfl
      · exact fun _ => rfl
    by_cases ha : alt_held s.local_mod_bits
    · refine ⟨.ANIM_OVERRIDE, walk_cycle, 200, ?_, ?_, ?_, by decide⟩
      · exact hover (mod_walk, 2) (by rw [modifier_frames_eq, if_neg hs, if_neg hc, if_pos ha])
      · exact fun hb => hpol _ hb (Or.inr (Or.inr (Or.inl ha))) rfl
      · exact fun _ => rfl
    by_cases hg : gui_held s.local_mod_bits
    · refine ⟨.ANIM_OVERRIDE, sit_cycle, 200, ?_, ?_, ?_, by decide⟩
      · exact hover (mod_sit, 2)
          (by rw [modifier_frames_eq, if_neg hs, if_neg hc, if_neg ha, if_pos hg])
      · exact fun hb => hpol _ hb (Or.inr (Or.inr (Or.inr hg))) rfl
      · exact fun _ => rfl
    have hnone : get_modifier_frames (build_zmk_mod_bits s.local_mod_bits) = none := by
      rw [modifier_frames_eq, if_neg hs, if_neg hc, if_neg ha, if_neg hg]
    have hrate : ∀ (obj : Nat) (cur : anim_state), set_animation obj s cur =
        if s.wpm < 15 then
          if cur ≠ .ANIM_IDLE then (.ANIM_IDLE, cycle_start obj sit_cycle 960) else (cur, [])
        else if s.wpm < 30 then
          if cur ≠ .ANIM_SLOW then (.ANIM_SLOW, cycle_start obj walk_cycle 200) else (cur, [])
        else if s.wpm < 70 then
          if cur ≠ .ANIM_MID then (.ANIM_MID, cycle_start obj walk_cycle 200) else (cur, [])
        else
          if cur ≠ .ANIM_FAST then (.ANIM_FAST, cycle_start obj run_cycle 200)
          else (cur, []) := by
      intro obj cur
      unfold set_animation
      simp only [h1, if_false, hnone]
      rfl
    have hpol2 : s.local_mod_bits < 256 → rate_bucket s.wpm = policy_label s := by
      intro hb
      have h0 : ¬ s.local_mod_bits ≠ 0 := fun h =>
        ((some_pair_held_iff _ hb).1 h).elim hs (fun h => h.elim hc (fun h => h.elim ha hg))
      simp only [policy_label, hl, h0, or_self, if_false]
    have hno : ¬ (lock_active s.indicators ∨ shift_held s.local_mod_bits ∨
        ctrl_held s.local_mod_bits ∨ alt_held s.local_mod_bits ∨ gui_held s.local_mod_bits) :=
      fun h => h.elim hl (fun h => h.elim hs (fun h => h.elim hc (fun h => h.elim ha hg)))
    by_cases r1 : s.wpm < 15
    · refine ⟨.ANIM_IDLE, sit_cycle, 960, ?_, ?_, fun h => absurd h hno, by decide⟩
      · intro obj cur
        rw [hrate, if_pos r1]
      · intro hb
        rw [← hpol2 hb, rate_bucket, if_pos r1]
    by_cases r2 : s.wpm < 30
    · refine ⟨.ANIM_SLOW, walk_cycle, 200, ?_, ?_, fun h => absurd h hno, by decide⟩
      · intro obj cur
        rw [hrate, if_neg r1, if_pos r2]
      · intro hb
        rw [← hpol2 hb, rate_bucket, if_neg r1, if_pos r2]
    by_cases r3 : s.wpm < 70
    · refine ⟨.ANIM_MID, walk_cycle, 200, ?_, ?_, fun h => absurd h hno, by decide⟩
      · intro obj cur
        rw [hrate, if_neg r1, if_neg r2, if_pos r3]
      · intro hb
        rw [← hpol2 hb, rate_bucket, if_neg r1, if_neg r2, if_pos r3]
    · refine ⟨.ANIM_FAST, run_cycle, 200, ?_, ?_, fun h => absurd h hno, by decide⟩
      · intro obj cur
        rw [hrate, if_neg r1, if_neg r2, if_neg r3]
      · intro hb
        rw [← hpol2 hb, rate_bucket, if_neg r1, if_neg r2, if_neg r3]

/-- With one registered widget the dispatch is one `set_animation` call. -/
theorem luna_update_cb_single (obj : Nat) (s : luna_state) (cur : anim_state) :
    luna_update_cb [obj] s cur = set_animation obj s cur := by
  simp [luna_update_cb]

/-- A cycle start is never the empty call list. -/
theorem cycle_start_ne_nil (obj : Nat) (frames : List Img) (ms : Nat) :
    cycle_start obj frames ms ≠ [] := by
  simp [cycle_start]

/-- The aggregator keeps the local modifier bitset within 8 bits. -/
theorem get_luna_state_bits_lt (eh : zmk_event) (g : luna_state)
    (hg : g.local_mod_bits < 256) : (get_luna_state eh g).local_mod_bits < 256 := by
  cases eh with
  | wpm_state_changed v => exact hg
  | keycode_state_changed usage_page keycode state =>
    unfold get_luna_state
    simp only
    split_ifs
    · exact Nat.mod_lt _ (by norm_num)
    · exact Nat.mod_lt _ (by norm_num)
    · exact hg
    · exact hg
  | hid_indicators_changed i => exact hg
  | other => exact hg

/-- Every state reached by deliveries keeps the modifier bitset within 8 bits. -/
theorem deliverAll_bits_lt (widgets : List Nat) (evs : List zmk_event) (w : World)
    (hw : w.g_luna_state.local_mod_bits < 256) :
    (deliverAll widgets w evs).g_luna_state.local_mod_bits < 256 := by
  induction evs generalizing w with
  | nil => exact hw
  | cons eh rest ih =>
    exact ih (deliver widgets w eh).1 (get_luna_state_bits_lt eh w.g_luna_state hw)

/-- C4: for one mascot widget and any sequence of events delivered from the
initial state, after each event the label is the policy label of the
accumulated snapshot, the delivery issues a cycle start exactly when that
label differs from the label before the event, and makes no call at all
exactly when it does not. The events rate 5, rate 20, capslock on, locks off
give Idle, Slow, Override, Slow with one cycle start (sit at 960 ms, walk,
bark, walk at 200 ms) at each of the four. -/
theorem C4_label_tracks_policy (obj : Nat) (pre : List zmk_event) (eh : zmk_event) :
    (deliver [obj] (deliverAll [obj] World.init pre) eh).1.current_anim_state
      = policy_label (deliver [obj] (deliverAll [obj] World.init pre) eh).1.g_luna_state ∧
    ((∃ frames ms, (deliver [obj] (deliverAll [obj] World.init pre) eh).2
          = cycle_start obj frames ms) ↔
      (deliver [obj] (deliverAll [obj] World.init pre) eh).1.current_anim_state
        ≠ (deliverAll [obj] World.init pre).current_anim_state) ∧
    ((deliver [obj] (deliverAll [obj] World.init pre) eh).2 = [] ↔
      (deliver [obj] (deliverAll [obj] World.init pre) eh).1.current_anim_state
        = (deliverAll [obj] World.init pre).current_anim_state) ∧
    run_trace [obj] World.init
        [.wpm_state_changed 5, .wpm_state_changed 20,
         .hid_indicators_changed 0x02, .hid_indicators_changed 0]
      = [(.ANIM_IDLE, cycle_start obj sit_cycle 960),
         (.ANIM_SLOW, cycle_start obj walk_cycle 200),
         (.ANIM_OVERRIDE, cycle_start obj bark_cycle 200),
         (.ANIM_SLOW, cycle_start obj walk_cycle 200)] := by
  have hinit : World.init.g_luna_state.local_mod_bits < 256 := by decide
  have hw := deliverAll_bits_lt [obj] pre World.init hinit
  generalize deliverAll [obj] World.init pre = w at hw ⊢
  have hs := get_luna_state_bits_lt eh w.g_luna_state hw
  obtain ⟨target, frames, ms, hshape, hpol, -, -⟩ :=
    set_animation_shape (get_luna_state eh w.g_luna_state)
  have hd : deliver [obj] w eh =
      (⟨get_luna_state eh w.g_luna_state,
        (set_animation obj (get_luna_state eh w.g_luna_state) w.current_anim_state).1⟩,
       (set_animation obj (get_luna_state eh w.g_luna_state) w.current_anim_state).2) := by
    simp [deliver, luna_update_cb_single]
  have hscen : run_trace [obj] World.init
        [.wpm_state_changed 5, .wpm_state_changed 20,
         .hid_indicators_changed 0x02, .hid_indicators_changed 0]
      = [(.ANIM_IDLE, cycle_start obj sit_cycle 960),
         (.ANIM_SLOW, cycle_start obj walk_cycle 200),
         (.ANIM_OVERRIDE, cycle_start obj bark_cycle 200),
         (.ANIM_SLOW, cycle_start obj walk_cycle 200)] := by
    simp only [run_trace, deliver, luna_update_cb_single, get_luna_state, World.init]
    rfl
  rw [hd, hshape, ← hpol hs]
  refine ⟨?_, ?_, ?_, hscen⟩
  · by_cases hc : w.current_anim_state = target <;> simp [hc]
  · by_cases hc : w.current_anim_state = target
    · rw [if_neg (not_not.2 hc)]
      constructor
      · rintro ⟨f, m, h⟩
        exact absurd h.symm (cycle_start_ne_nil obj f m)
      · intro h
        exact absurd rfl h
    · rw [if_pos hc]
      exact ⟨fun _ h => hc h.symm, fun _ => ⟨frames, ms, rfl⟩⟩
  · by_cases hc : w.current_anim_state = target
    · rw [if_neg (not_not.2 hc)]
      exact ⟨fun _ => rfl, fun _ => rfl⟩
    · rw [if_pos hc]
      constructor
      · intro h
        exact absurd h (cycle_start_ne_nil obj frames ms)
      · intro h
        exact absurd h.symm hc

/-- C5: calling `set_animation` again with the same snapshot, on the label the
first call left, makes no drawing call and leaves that label; and from the
initial label None the first call issues exactly one cycle start. -/
theorem C5_second_call_is_noop (obj : Nat) (s : luna_state) (cur : anim_state) :
    set_animation obj s (set_animation obj s cur).1 = ((set_animation obj s cur).1, []) ∧
    (∃ frames ms, (set_animation obj s .ANIM_NONE).2 = cycle_start obj frames ms) := by
  obtain ⟨target, frames, ms, hshape, -, -, hnone⟩ := set_animation_shape s
  have h1 : (set_animation obj s cur).1 = target := by
    rw [hshape]
    by_cases hc : cur = target <;> simp [hc]
  constructor
  · rw [h1, hshape]
    simp
  · refine ⟨frames, ms, ?_⟩
    rw [hshape, if_pos hnone.symm]

/-- C6: for every modifier mask, `set_modifiers_text` hands the label exactly
the subsequence of "MACS" that keeps M iff a GUI bit is set, A iff an ALT bit,
C iff a CTRL bit, S iff a SHIFT bit; the text has at most 4 characters, so with
its terminator it fits the 8-byte buffer (no `strcat` overruns). The mask
of left-gui and right-alt gives "MA". -/
theorem C6_modifier_letters (label m : Nat) :
    (∃ text : List Nat,
      set_modifiers_text label ⟨m⟩ = some [.lv_label_set_text label text] ∧
      as_text text = letter_code m ∧ text.length ≤ 4 ∧ text.length + 1 ≤ 8) ∧
    set_modifiers_text label ⟨MOD_LGUI ||| MOD_RALT⟩
      = some [.lv_label_set_text label (lit "MA")] := by
  have e1 : (m &&& (MOD_LGUI ||| MOD_RGUI) ≠ 0) = gui_reported m :=
    propext (pair_test_iff m _ _)
  have e2 : (m &&& (MOD_LALT ||| MOD_RALT) ≠ 0) = alt_reported m :=
    propext (pair_test_iff m _ _)
  have e3 : (m &&& (MOD_LCTL ||| MOD_RCTL) ≠ 0) = ctrl_reported m :=
    propext (pair_test_iff m _ _)
  have e4 : (m &&& (MOD_LSFT ||| MOD_RSFT) ≠ 0) = shift_reported m :=
    propext (pair_test_iff m _ _)
  refine ⟨?_, rfl⟩
  unfold set_modifiers_text letter_code
  simp only [e1, e2, e3, e4]
  by_cases h1 : gui_reported m <;> by_cases h2 : alt_reported m <;>
    by_cases h3 : ctrl_reported m <;> by_cases h4 : shift_reported m <;>
    simp only [h1, h2, h3, h4, if_true, if_false, and_true, and_false, or_false, false_or] <;>
    exact ⟨_, rfl, by decide, by decide, by decide⟩

/-- C7: the fill bar drawn by `draw_battery` starts at x = 2 and is
`(level + 2) / 4` wide (integer division); the width is 0 at level 0 and 25 at
level 100, it is non-decreasing in the level, and for every level up to 100 it
lies in 0..25, so the bar stays inside the 27-pixel inner track that starts at
x = 1. -/
theorem C7_battery_fill_width (st : status_state) :
    fill_bar st = (2, (((st.battery + 2) / 4 : Nat) : Int)) ∧
    inner_track st = (1, 27) ∧
    (fill_bar (at_level 0)).2 = 0 ∧
    (fill_bar (at_level 100)).2 = 25 ∧
    (∀ a b : Nat, a ≤ b → (fill_bar (at_level a)).2 ≤ (fill_bar (at_level b)).2) ∧
    (st.battery ≤ 100 →
      0 ≤ (fill_bar st).2 ∧ (fill_bar st).2 ≤ 25 ∧
      (inner_track st).1 ≤ (fill_bar st).1 ∧
      (fill_bar st).1 + (fill_bar st).2 ≤ (inner_track st).1 + (inner_track st).2) := by
  have hbar : ∀ t : status_state, fill_bar t = (2, (((t.battery + 2) / 4 : Nat) : Int)) :=
    fun _ => rfl
  have htrack : inner_track st = (1, 27) := rfl
  refine ⟨hbar st, htrack, rfl, rfl, ?_, ?_⟩
  · intro a b hab
    rw [hbar, hbar]
    simp only [at_level]
    have : (a + 2) / 4 ≤ (b + 2) / 4 := Nat.div_le_div_right (by omega)
    exact_mod_cast this
  · intro h
    rw [hbar, htrack]
    simp only
    have : (st.battery + 2) / 4 ≤ 25 := by omega
    omega

/-- Witness for C7: at level 100 the bar is 25 wide and inside the track. -/
theorem C7_battery_fill_width_witness :
    0 ≤ (fill_bar (at_level 100)).2 ∧ (fill_bar (at_level 100)).2 ≤ 25 ∧
    (inner_track (at_level 100)).1 ≤ (fill_bar (at_level 100)).1 ∧
    (fill_bar (at_level 100)).1 + (fill_bar (at_level 100)).2
      ≤ (inner_track (at_level 100)).1 + (inner_track (at_level 100)).2 :=
  (C7_battery_fill_width (at_level 100)).2.2.2.2.2 (by decide)

/-- C8: `usage_to_mod_bit` sends the usage ids 0xE0..0xE7 to single-bit
values (left control 1, left shift 4, left alt 16, left gui 64, right control
2, right shift 8, right alt 32, right gui 128), pairwise distinct and together
covering all 8 bits of a byte, and sends every other usage id to 0. -/
theorem C8_usage_to_mod_bit :
    (List.map usage_to_mod_bit [0xE0, 0xE1, 0xE2, 0xE3, 0xE4, 0xE5, 0xE6, 0xE7]
      = [1, 4, 16, 64, 2, 8, 32, 128]) ∧
    (∀ u < 256, 0xE0 ≤ u ∧ u ≤ 0xE7 → ∃ k < 8, usage_to_mod_bit u = 2 ^ k) ∧
    (∀ u < 256, ∀ v < 256, 0xE0 ≤ u ∧ u ≤ 0xE7 → 0xE0 ≤ v ∧ v ≤ 0xE7 →
      usage_to_mod_bit u = usage_to_mod_bit v → u = v) ∧
    (List.foldl (fun acc u => acc ||| usage_to_mod_bit u) 0
      [0xE0, 0xE1, 0xE2, 0xE3, 0xE4, 0xE5, 0xE6, 0xE7] = 0xFF) ∧
    (∀ u : Nat, u < 0xE0 ∨ 0xE7 < u → usage_to_mod_bit u = 0) := by
  refine ⟨by decide, ?_, ?_, by decide, ?_⟩
  · intro u hu hr
    obtain ⟨h1, h2⟩ := hr
    interval_cases u
    · exact ⟨0, by decide, by decide⟩
    · exact ⟨2, by decide, by decide⟩
    · exact ⟨4, by decide, by decide⟩
    · exact ⟨6, by decide, by decide⟩
    · exact ⟨1, by decide, by decide⟩
    · exact ⟨3, by decide, by decide⟩
    · exact ⟨5, by decide, by decide⟩
    · exact ⟨7, by decide, by decide⟩
  · intro u hu v hv hur hvr
    obtain ⟨h1, h2⟩ := hur
    obtain ⟨h3, h4⟩ := hvr
    interval_cases u <;> interval_cases v <;> decide
  · intro u hu
    unfold usage_to_mod_bit
    simp only [HID_USAGE_KEY_LEFT_CONTROL, HID_USAGE_KEY_RIGHT_CONTROL, HID_USAGE_KEY_LEFT_SHIFT,
      HID_USAGE_KEY_RIGHT_SHIFT, HID_USAGE_KEY_LEFT_ALT, HID_USAGE_KEY_RIGHT_ALT,
      HID_USAGE_KEY_LEFT_GUI, HID_USAGE_KEY_RIGHT_GUI]
    split_ifs <;> first | rfl | omega

/-- Witness for C8: 0xE1 (left shift) has the single bit 2 and 0x04 (the
letter A key) has none. -/
theorem C8_usage_to_mod_bit_witness :
    (∃ k < 8, usage_to_mod_bit 0xE1 = 2 ^ k) ∧ usage_to_mod_bit 0x04 = 0 :=
  ⟨C8_usage_to_mod_bit.2.1 0xE1 (by decide) (by decide),
   C8_usage_to_mod_bit.2.2.2.2 0x04 (by decide)⟩

/-- C9: for every 8-bit local bitset `b`, `build_zmk_mod_bits b` holds the
left and the right report bit of a pair exactly when one of the pair's two
local bits is set in `b`; so it depends only on the four pair conditions, the
left and the right variant of a key give the same mask, and the mask is 0
exactly when `b` is 0. -/
theorem C9_report_mask_pairs (b : Nat) (hb : b < 256) :
    ((shift_held b ↔ build_zmk_mod_bits b &&& MOD_LSFT ≠ 0) ∧
      (shift_held b ↔ build_zmk_mod_bits b &&& MOD_RSFT ≠ 0)) ∧
    ((ctrl_held b ↔ build_zmk_mod_bits b &&& MOD_LCTL ≠ 0) ∧
      (ctrl_held b ↔ build_zmk_mod_bits b &&& MOD_RCTL ≠ 0)) ∧
    ((alt_held b ↔ build_zmk_mod_bits b &&& MOD_LALT ≠ 0) ∧
      (alt_held b ↔ build_zmk_mod_bits b &&& MOD_RALT ≠ 0)) ∧
    ((gui_held b ↔ build_zmk_mod_bits b &&& MOD_LGUI ≠ 0) ∧
      (gui_held b ↔ build_zmk_mod_bits b &&& MOD_RGUI ≠ 0)) ∧
    (∀ b2 : Nat, (shift_held b ↔ shift_held b2) → (ctrl_held b ↔ ctrl_held b2) →
      (alt_held b ↔ alt_held b2) → (gui_held b ↔ gui_held b2) →
      build_zmk_mod_bits b = build_zmk_mod_bits b2) ∧
    (build_zmk_mod_bits (b ||| MY_MOD_LSHIFT) = build_zmk_mod_bits (b ||| MY_MOD_RSHIFT) ∧
      build_zmk_mod_bits (b ||| MY_MOD_LCTRL) = build_zmk_mod_bits (b ||| MY_MOD_RCTRL) ∧
      build_zmk_mod_bits (b ||| MY_MOD_LALT) = build_zmk_mod_bits (b ||| MY_MOD_RALT) ∧
      build_zmk_mod_bits (b ||| MY_MOD_LGUI) = build_zmk_mod_bits (b ||| MY_MOD_RGUI)) ∧
    (build_zmk_mod_bits b = 0 ↔ b = 0) := by
  have key : ∀ y < 256,
      ((shift_held y ↔ build_zmk_mod_bits y &&& MOD_LSFT ≠ 0) ∧
        (shift_held y ↔ build_zmk_mod_bits y &&& MOD_RSFT ≠ 0)) ∧
      ((ctrl_held y ↔ build_zmk_mod_bits y &&& MOD_LCTL ≠ 0) ∧
        (ctrl_held y ↔ build_zmk_mod_bits y &&& MOD_RCTL ≠ 0)) ∧
      ((alt_held y ↔ build_zmk_mod_bits y &&& MOD_LALT ≠ 0) ∧
        (alt_held y ↔ build_zmk_mod_bits y &&& MOD_RALT ≠ 0)) ∧
      ((gui_held y ↔ build_zmk_mod_bits y &&& MOD_LGUI ≠ 0) ∧
        (gui_held y ↔ build_zmk_mod_bits y &&& MOD_RGUI ≠ 0)) ∧
      (build_zmk_mod_bits (y ||| MY_MOD_LSHIFT) = build_zmk_mod_bits (y ||| MY_MOD_RSHIFT) ∧
        build_zmk_mod_bits (y ||| MY_MOD_LCTRL) = build_zmk_mod_bits (y ||| MY_MOD_RCTRL) ∧
        build_zmk_mod_bits (y ||| MY_MOD_LALT) = build_zmk_mod_bits (y ||| MY_MOD_RALT) ∧
        build_zmk_mod_bits (y ||| MY_MOD_LGUI) = build_zmk_mod_bits (y ||| MY_MOD_RGUI)) ∧
      (build_zmk_mod_bits y = 0 ↔ y = 0) := by
    decide
  obtain ⟨k1, k2, k3, k4, k5, k6⟩ := key b hb
  refine ⟨k1, k2, k3, k4, ?_, k5, k6⟩
  intro b2 h1 h2 h3 h4
  rw [build_zmk_mod_bits_eq b, build_zmk_mod_bits_eq b2]
  simp only [propext h1, propext h2, propext h3, propext h4]

/-- Witness for C9: left shift alone gives both shift report bits, 0x22. -/
theorem C9_report_mask_pairs_witness :
    build_zmk_mod_bits 4 &&& MOD_LSFT ≠ 0 ∧ build_zmk_mod_bits 4 &&& MOD_RSFT ≠ 0 ∧
    build_zmk_mod_bits 4 = build_zmk_mod_bits 8 :=
  ⟨(C9_report_mask_pairs 4 (by decide)).1.1.1 (by decide),
   (C9_report_mask_pairs 4 (by decide)).1.2.1 (by decide),
   (C9_report_mask_pairs 4 (by decide)).2.2.2.2.1 8 (by decide) (by decide) (by decide)
     (by decide)⟩

/-- A zero-initialised `char` array holds the empty string. -/
theorem c_str_replicate_zero (n : Nat) : c_str (List.replicate n 0) = [] := by
  cases n with
  | zero => rfl
  | succ k => simp [c_str, List.replicate_succ]

/-- Reading back a NUL-free string stored with its terminator. -/
theorem c_str_append_nul (g r : List Nat) (hg : ∀ b ∈ g, b ≠ 0) :
    c_str (g ++ [0] ++ r) = g := by
  induction g with
  | nil => simp [c_str]
  | cons a t ih =>
    have ha : a ≠ 0 := hg a (List.mem_cons_self a t)
    have ht : ∀ b ∈ t, b ≠ 0 := fun b hb => hg b (List.mem_cons_of_mem a hb)
    have hrec := ih ht
    simp only [c_str] at hrec ⊢
    rw [List.cons_append, List.cons_append, List.takeWhile_cons]
    simp only [ne_eq, ha, not_false_eq_true, decide_True, if_true]
    rw [hrec]

/-- Appending with `strcat` a fitting glyph into the fresh 10-byte `output_text`. -/
theorem strcat_fresh (g : List Nat) (hg : glyph_fits g) :
    ∃ buf, strcat (List.replicate 10 0) g = some buf ∧ c_str buf = g := by
  obtain ⟨hlen, hnul⟩ := hg
  unfold strcat
  rw [c_str_replicate_zero]
  have hc : (([] : List Nat).length < (List.replicate 10 0).length ∧
      ([] : List Nat).length + g.length + 1 ≤ (List.replicate 10 0).length) := by
    simp only [List.length_nil, List.length_replicate]
    omega
  simp only [hc, and_self, if_true, List.nil_append]
  exact ⟨_, rfl, c_str_append_nul g _ hnul⟩

/-- The only text `draw_canvas` draws is the output-status text. -/
theorem drawn_texts_canvas (env : ScreenEnv) (st : status_state) (t : List Nat) :
    drawn_texts (some
      ([.lv_canvas_draw_rect 0 0 env.CANVAS_WIDTH env.CANVAS_HEIGHT .LVGL_BACKGROUND]
        ++ draw_battery st
        ++ [.lv_canvas_draw_text 0 0 64 t,
            .draw_profile_status, .draw_layer_status, .rotate_canvas])) = some [t] := by
  cases hch : st.charging <;> simp [drawn_texts, draw_battery, hch, List.filterMap_append]

/-- C10: the one text `draw_canvas` draws is a single glyph fixed by the
transport and the profile flags: the USB glyph on USB whatever the flags; on
BLE the settings glyph when not bonded whatever the connected flag, the wifi
glyph when bonded and connected, the close glyph when bonded and not
connected; and the empty text for any other transport value. -/
theorem C10_output_status_glyph (env : ScreenEnv) (st : status_state)
    (henv : screen_env_ok env) :
    (st.transport = env.ZMK_TRANSPORT_USB →
      drawn_texts (draw_canvas env st) = some [env.LV_SYMBOL_USB]) ∧
    (st.transport = env.ZMK_TRANSPORT_BLE → st.active_profile_bonded = false →
      drawn_texts (draw_canvas env st) = some [env.LV_SYMBOL_SETTINGS]) ∧
    (st.transport = env.ZMK_TRANSPORT_BLE → st.active_profile_bonded = true →
      st.active_profile_connected = true →
      drawn_texts (draw_canvas env st) = some [env.LV_SYMBOL_WIFI]) ∧
    (st.transport = env.ZMK_TRANSPORT_BLE → st.active_profile_bonded = true →
      st.active_profile_connected = false →
      drawn_texts (draw_canvas env st) = some [env.LV_SYMBOL_CLOSE]) ∧
    (st.transport ≠ env.ZMK_TRANSPORT_USB → st.transport ≠ env.ZMK_TRANSPORT_BLE →
      drawn_texts (draw_canvas env st) = some [[]]) := by
  obtain ⟨hne, husb, hwifi, hclose, hset⟩ := henv
  have hble_ne : env.ZMK_TRANSPORT_BLE ≠ env.ZMK_TRANSPORT_USB := fun h => hne h.symm
  refine ⟨?_, ?_, ?_, ?_, ?_⟩
  · intro ht
    obtain ⟨buf, hbuf, hstr⟩ := strcat_fresh _ husb
    unfold draw_canvas
    simp only [ht, if_true, hbuf, Option.bind_eq_bind, Option.some_bind]
    rw [drawn_texts_canvas, hstr]
  · intro ht hb
    obtain ⟨buf, hbuf, hstr⟩ := strcat_fresh _ hset
    unfold draw_canvas
    simp only [ht, hble_ne, if_true, if_false, hb, hbuf, Option.bind_eq_bind, Option.some_bind,
      Bool.false_eq_true]
    rw [drawn_texts_canvas, hstr]
  · intro ht hb hc
    obtain ⟨buf, hbuf, hstr⟩ := strcat_fresh _ hwifi
    unfold draw_canvas
    simp only [ht, hble_ne, if_true, if_false, hb, hc, hbuf, Option.bind_eq_bind,
      Option.some_bind]
    rw [drawn_texts_canvas, hstr]
  · intro ht hb hc
    obtain ⟨buf, hbuf, hstr⟩ := strcat_fresh _ hclose
    unfold draw_canvas
    simp only [ht, hble_ne, if_true, if_false, hb, hc, hbuf, Option.bind_eq_bind,
      Option.some_bind, Bool.false_eq_true]
    rw [drawn_texts_canvas, hstr]
  · intro h1 h2
    unfold draw_canvas
    simp only [h1, h2, if_false, Option.bind_eq_bind, Option.some_bind]
    rw [drawn_texts_canvas, c_str_replicate_zero]

/-- Witness for C10: with LVGL's glyphs, a bonded and connected BLE profile
draws the wifi glyph. -/
theorem C10_output_status_glyph_witness :
    drawn_texts (draw_canvas lvgl_env ⟨80, false, 1, true, true⟩)
      = some [[0xEF, 0x87, 0xAB]] :=
  (C10_output_status_glyph lvgl_env ⟨80, false, 1, true, true⟩
    (by decide)).2.2.1 rfl rfl rfl

/-- C11: from the label Override, `set_animation` makes no call and keeps
Override for every snapshot with a lock bit or any (8-bit) modifier bit set,
whatever cause started the playing cycle; it starts a cycle from Override only
on a snapshot with no lock bit and no modifier bit, and that cycle is the rate
cycle. A reachable stale state: rate 5, left shift pressed, capslock on gives
Idle/sit, Override/sneak, then Override with no call, so sneak keeps playing
with a lock bit active, where any other entry label would have started bark. -/
theorem C11_override_is_sticky (obj : Nat) (s : luna_state) (hs : s.local_mod_bits < 256) :
    (lock_active s.indicators ∨ s.local_mod_bits ≠ 0 →
      set_animation obj s .ANIM_OVERRIDE = (.ANIM_OVERRIDE, [])) ∧
    ((set_animation obj s .ANIM_OVERRIDE).2 ≠ [] →
      (¬ lock_active s.indicators ∧ s.local_mod_bits = 0) ∧
      (set_animation obj s .ANIM_OVERRIDE).1 = rate_bucket s.wpm) ∧
    (run_trace [obj] World.init
        [.wpm_state_changed 5, .keycode_state_changed HID_USAGE_KEY 0xE1 true,
         .hid_indicators_changed 0x02]
      = [(.ANIM_IDLE, cycle_start obj sit_cycle 960),
         (.ANIM_OVERRIDE, cycle_start obj sneak_cycle 200),
         (.ANIM_OVERRIDE, [])] ∧
      playing_frames obj (run_calls [obj] World.init
        [.wpm_state_changed 5, .keycode_state_changed HID_USAGE_KEY 0xE1 true,
         .hid_indicators_changed 0x02]) = some sneak_cycle ∧
      lock_active (deliverAll [obj] World.init
        [.wpm_state_changed 5, .keycode_state_changed HID_USAGE_KEY 0xE1 true,
         .hid_indicators_changed 0x02]).g_luna_state.indicators ∧
      set_animation obj (deliverAll [obj] World.init
        [.wpm_state_changed 5, .keycode_state_changed HID_USAGE_KEY 0xE1 true,
         .hid_indicators_changed 0x02]).g_luna_state .ANIM_IDLE
        = (.ANIM_OVERRIDE, cycle_start obj bark_cycle 200)) := by
  obtain ⟨target, frames, ms, hshape, hpol, -, -⟩ := set_animation_shape s
  have htarget := hpol hs
  have htrace : run_trace [obj] World.init
        [.wpm_state_changed 5, .keycode_state_changed HID_USAGE_KEY 0xE1 true,
         .hid_indicators_changed 0x02]
      = [(.ANIM_IDLE, cycle_start obj sit_cycle 960),
         (.ANIM_OVERRIDE, cycle_start obj sneak_cycle 200),
         (.ANIM_OVERRIDE, [])] := by
    simp only [run_trace, deliver, luna_update_cb_single, get_luna_state, World.init]
    rfl
  have hfinal : (deliverAll [obj] World.init
        [.wpm_state_changed 5, .keycode_state_changed HID_USAGE_KEY 0xE1 true,
         .hid_indicators_changed 0x02]).g_luna_state = ⟨5, 4, 2⟩ := by
    simp only [deliverAll, deliver, get_luna_state, World.init]
    rfl
  rw [hfinal]
  refine ⟨?_, ?_, htrace, ?_, by decide, rfl⟩
  · intro h
    have : target = .ANIM_OVERRIDE := by
      rw [htarget, policy_label, if_pos h]
    rw [hshape, this]
    simp
  · intro h
    rw [hshape] at h ⊢
    by_cases hc : anim_state.ANIM_OVERRIDE = target
    · rw [if_neg (not_not.2 hc)] at h
      exact absurd rfl h
    · rw [if_pos hc]
      have hclear : ¬ (lock_active s.indicators ∨ s.local_mod_bits ≠ 0) := by
        intro hl
        apply hc
        rw [htarget, policy_label, if_pos hl]
      have hb : rate_bucket s.wpm = target := by
        rw [htarget, policy_label, if_neg hclear]
      refine ⟨⟨fun hl => hclear (Or.inl hl), ?_⟩, hb.symm⟩
      by_contra h0
      exact hclear (Or.inr h0)
  · simp only [run_calls, htrace]
    simp [playing_frames, cycle_start]

/-- Witness for C11: capslock and left shift both active, entered from
Override: nothing is drawn. -/
theorem C11_override_is_sticky_witness :
    set_animation 0 ⟨5, 4, 2⟩ .ANIM_OVERRIDE = (.ANIM_OVERRIDE, []) :=
  (C11_override_is_sticky 0 ⟨5, 4, 2⟩ (by decide)).1 (by decide)

/-- Every call of a cycle start is made on the widget it is started on. -/
theorem call_obj_cycle_start (obj : Nat) (frames : List Img) (ms : Nat) :
    ∀ c ∈ cycle_start obj frames ms, call_obj c = obj := by
  intro c hc
  simp only [cycle_start, List.mem_cons, List.mem_singleton, List.not_mem_nil, or_false] at hc
  rcases hc with h | h | h | h <;> rw [h] <;> rfl

/-- Once the shared label is the snapshot's target, a pass over any widgets
draws nothing and leaves the label. -/
theorem luna_update_cb_settled (widgets : List Nat) (s : luna_state) (target : anim_state)
    (hset : ∀ obj : Nat, set_animation obj s target = (target, [])) :
    luna_update_cb widgets s target = (target, []) := by
  induction widgets with
  | nil => rfl
  | cons obj rest ih =>
    unfold luna_update_cb
    simp only [hset obj, ih, List.append_nil]

/-- A pass over a non-empty registry is the `set_animation` call on its first
widget: that call leaves the shared label at the target, so every later widget
sees nothing to do. -/
theorem luna_update_cb_first (first : Nat) (rest : List Nat) (s : luna_state)
    (cur : anim_state) :
    luna_update_cb (first :: rest) s cur = set_animation first s cur := by
  obtain ⟨target, frames, ms, hshape, -, -, -⟩ := set_animation_shape s
  have hset : ∀ obj : Nat, set_animation obj s target = (target, []) := by
    intro obj
    rw [hshape]
    simp
  have h1 : (set_animation first s cur).1 = target := by
    rw [hshape]
    by_cases hc : cur = target <;> simp [hc]
  unfold luna_update_cb
  simp only [h1, luna_update_cb_settled rest s target hset, List.append_nil]
  rw [← h1]

/-- Every call of a `set_animation` call is made on the widget it is given. -/
theorem call_obj_set_animation (obj : Nat) (s : luna_state) (cur : anim_state) :
    ∀ c ∈ (set_animation obj s cur).2, call_obj c = obj := by
  obtain ⟨target, frames, ms, hshape, -, -, -⟩ := set_animation_shape s
  rw [hshape]
  by_cases hc : cur = target
  · rw [if_neg (not_not.2 hc)]
    intro c hmem
    exact absurd hmem (List.not_mem_nil c)
  · rw [if_pos hc]
    exact call_obj_cycle_start obj frames ms

/-- Over any sequence of update passes on a non-empty registry, every call is
made on the first widget. -/
theorem call_obj_update_passes (first : Nat) (rest : List Nat) (passes : List luna_state)
    (cur : anim_state) :
    ∀ c ∈ (update_passes (first :: rest) cur passes).2, call_obj c = first := by
  induction passes generalizing cur with
  | nil =>
    intro c hmem
    exact absurd hmem (List.not_mem_nil c)
  | cons s more ih =>
    intro c hmem
    unfold update_passes at hmem
    simp only [List.mem_append] at hmem
    rcases hmem with h | h
    · rw [luna_update_cb_first] at h
      exact call_obj_set_animation first s cur c h
    · exact ih _ c h

/-- C13: with the label shared by all mascot widgets, one pass of
`luna_update_cb` over a registry of two or more widgets makes exactly the
calls of `set_animation` on the first widget: at most one cycle start, always
on the first widget, issued when the snapshot's policy label differs from the
current label and not otherwise (8-bit modifier bitset); and over any
sequence of update passes every call is on the first widget, so no other
widget ever receives a cycle start. -/
theorem C13_only_first_widget_starts (first second : Nat) (rest : List Nat) (s : luna_state)
    (cur : anim_state) (passes : List luna_state) :
    luna_update_cb (first :: second :: rest) s cur = set_animation first s cur ∧
    ((luna_update_cb (first :: second :: rest) s cur).2 = [] ∨
      ∃ frames ms,
        (luna_update_cb (first :: second :: rest) s cur).2 = cycle_start first frames ms) ∧
    (∀ c ∈ (luna_update_cb (first :: second :: rest) s cur).2, call_obj c = first) ∧
    (s.local_mod_bits < 256 →
      (cur ≠ policy_label s →
        (luna_update_cb (first :: second :: rest) s cur).1 = policy_label s ∧
        ∃ frames ms,
          (luna_update_cb (first :: second :: rest) s cur).2 = cycle_start first frames ms) ∧
      (cur = policy_label s →
        luna_update_cb (first :: second :: rest) s cur = (cur, []))) ∧
    (∀ c ∈ (update_passes (first :: second :: rest) cur passes).2, call_obj c = first) := by
  have hfirst := luna_update_cb_first first (second :: rest) s cur
  obtain ⟨target, frames, ms, hshape, hpol, -, -⟩ := set_animation_shape s
  refine ⟨hfirst, ?_, ?_, ?_, call_obj_update_passes first (second :: rest) passes cur⟩
  · rw [hfirst, hshape]
    by_cases hc : cur = target
    · rw [if_neg (not_not.2 hc)]
      exact Or.inl rfl
    · rw [if_pos hc]
      exact Or.inr ⟨frames, ms, rfl⟩
  · rw [hfirst]
    exact call_obj_set_animation first s cur
  · intro hs
    rw [hfirst, hshape, ← hpol hs]
    constructor
    · intro hc
      rw [if_pos hc]
      exact ⟨rfl, frames, ms, rfl⟩
    · intro hc
      rw [if_neg (not_not.2 hc)]

/-- Witness for C13: three widgets 10, 11, 12, rate 20 arriving at label Idle:
the walk cycle is started on widget 10 only. -/
theorem C13_only_first_widget_starts_witness :
    (luna_update_cb [10, 11, 12] ⟨20, 0, 0⟩ .ANIM_IDLE).1 = policy_label ⟨20, 0, 0⟩ ∧
    ∃ frames ms,
      (luna_update_cb [10, 11, 12] ⟨20, 0, 0⟩ .ANIM_IDLE).2 = cycle_start 10 frames ms :=
  (C13_only_first_widget_starts 10 11 [12] ⟨20, 0, 0⟩ .ANIM_IDLE []).2.2.2.1
    (by decide) |>.1 (by decide)

/-- Setting or clearing the bit of one recognised key in an 8-bit bitset, seen
through the bit of another recognised key. -/
theorem key_step : ∀ kc ∈ modifier_usages, ∀ u ∈ modifier_usages, ∀ b < 256,
    ((((b ||| usage_to_mod_bit kc) % 256) &&& usage_to_mod_bit u ≠ 0) ↔
      (kc = u ∨ b &&& usage_to_mod_bit u ≠ 0)) ∧
    ((((b &&& (0xFF ^^^ usage_to_mod_bit kc)) % 256) &&& usage_to_mod_bit u ≠ 0) ↔
      (¬ kc = u ∧ b &&& usage_to_mod_bit u ≠ 0)) := by
  decide

/-- The translator returns a bit exactly on the eight recognised usage ids. -/
theorem usage_to_mod_bit_ne_zero_iff (usage : Nat) :
    usage_to_mod_bit usage ≠ 0 ↔ usage ∈ modifier_usages := by
  unfold usage_to_mod_bit modifier_usages
  simp only [List.mem_cons, List.mem_singleton, List.not_mem_nil, or_false]
  constructor
  · intro h
    split_ifs at h <;> tauto
  · intro h
    rcases h with h | h | h | h | h | h | h | h <;> rw [h] <;> decide

/-- One event seen through the bit of a recognised key `u`: a key event on the
keyboard page carrying the 8-bit usage id `u` sets the bit to its pressed flag,
every other event with an 8-bit usage id leaves the bit as it was. -/
theorem get_luna_state_key_bit (eh : zmk_event) (g : luna_state) (u : Nat)
    (hg : g.local_mod_bits < 256) (h8 : keycode_8bit eh) (hu : u ∈ modifier_usages) :
    ((get_luna_state eh g).local_mod_bits &&& usage_to_mod_bit u ≠ 0) ↔
      (match last_key_event u [eh] with
       | some pressed => pressed = true
       | none => g.local_mod_bits &&& usage_to_mod_bit u ≠ 0) := by
  cases eh with
  | wpm_state_changed v => exact Iff.rfl
  | hid_indicators_changed i => exact Iff.rfl
  | other => exact Iff.rfl
  | keycode_state_changed usage_page keycode state =>
    have hk : keycode % 256 = keycode := Nat.mod_eq_of_lt h8
    simp only [last_key_event, get_luna_state, hk]
    by_cases hp : usage_page = HID_USAGE_KEY
    · simp only [hp, if_true, true_and]
      by_cases hbit : usage_to_mod_bit keycode ≠ 0
      · have hkc : keycode ∈ modifier_usages := (usage_to_mod_bit_ne_zero_iff keycode).1 hbit
        obtain ⟨hset, hclr⟩ := key_step keycode hkc u hu g.local_mod_bits hg
        rw [if_pos hbit]
        by_cases hku : keycode = u
        · rw [if_pos hku]
          cases state
          · simp only [Bool.false_eq_true, if_false]
            rw [hclr]
            simp [hku]
          · simp only [if_true]
            rw [hset]
            simp [hku]
        · rw [if_neg hku]
          cases state
          · simp only [Bool.false_eq_true, if_false]
            rw [hclr]
            simp [hku]
          · simp only [if_true]
            rw [hset]
            simp [hku]
      · have hku : ¬ keycode = u := by
          intro h
          rw [h] at hbit
          exact hbit ((usage_to_mod_bit_ne_zero_iff u).2 hu)
        rw [if_neg hbit, if_neg hku]
    · simp only [hp, if_false, false_and]

/-- The most recent key event of a sequence is looked for in the later events
first. -/
theorem last_key_event_cons (u : Nat) (eh : zmk_event) (rest : List zmk_event) :
    last_key_event u (eh :: rest) =
      match last_key_event u rest with
      | some pressed => some pressed
      | none => last_key_event u [eh] := by
  cases hl : last_key_event u rest with
  | some pressed => simp only [last_key_event, hl]
  | none => cases eh <;> simp only [last_key_event, hl]

/-- Feeding events with 8-bit usage ids from any 8-bit bitset: the bit of a
recognised key follows its most recent key event, and keeps its entry value
when there is none. -/
theorem feed_key_bit (evs : List zmk_event) (g : luna_state) (u : Nat)
    (hg : g.local_mod_bits < 256) (h8 : ∀ e ∈ evs, keycode_8bit e)
    (hu : u ∈ modifier_usages) :
    ((feed g evs).local_mod_bits &&& usage_to_mod_bit u ≠ 0) ↔
      (match last_key_event u evs with
       | some pressed => pressed = true
       | none => g.local_mod_bits &&& usage_to_mod_bit u ≠ 0) := by
  induction evs generalizing g with
  | nil => exact Iff.rfl
  | cons eh rest ih =>
    have hrest := ih (get_luna_state eh g) (get_luna_state_bits_lt eh g hg)
      (fun e he => h8 e (List.mem_cons_of_mem eh he))
    have hstep := get_luna_state_key_bit eh g u hg (h8 eh (List.mem_cons_self eh rest)) hu
    rw [last_key_event_cons]
    unfold feed
    rw [hrest]
    cases hl : last_key_event u rest with
    | some pressed => exact Iff.rfl
    | none => exact hstep

/-- When every key event carries an 8-bit usage id, the modifier bits follow
the most recent key event of each recognised key. -/
theorem key_tracking_8bit (evs : List zmk_event) (h8 : ∀ e ∈ evs, keycode_8bit e) :
    key_tracking_holds evs := by
  intro u hu
  rw [feed_key_bit evs ⟨0, 0, 0⟩ u (by decide) h8 hu]
  cases last_key_event u evs with
  | some pressed => simp
  | none => simp

/-- A key event on another usage page, or with an 8-bit usage id that is not
one of the eight recognised ones, leaves the whole snapshot unchanged. -/
theorem ignored_key_event_8bit (usage_page keycode : Nat) (state : Bool) (g : luna_state)
    (h : usage_page ≠ HID_USAGE_KEY ∨ (keycode < 256 ∧ keycode ∉ modifier_usages)) :
    get_luna_state (.keycode_state_changed usage_page keycode state) g = g := by
  unfold get_luna_state
  rcases h with h | ⟨h8, h⟩
  · simp only [h, if_false]
  · have hbit : ¬ usage_to_mod_bit (keycode % 256) ≠ 0 := by
      rw [Nat.mod_eq_of_lt h8]
      exact fun hb => h ((usage_to_mod_bit_ne_zero_iff keycode).1 hb)
    simp only [hbit, if_false, ite_self]

/-- A key event never changes the stored typing rate or indicator bits. -/
theorem key_event_keeps_rate_and_indicators (usage_page keycode : Nat) (state : Bool)
    (g : luna_state) :
    (get_luna_state (.keycode_state_changed usage_page keycode state) g).wpm = g.wpm ∧
    (get_luna_state (.keycode_state_changed usage_page keycode state) g).indicators
      = g.indicators := by
  unfold get_luna_state
  simp only
  split_ifs <;> exact ⟨rfl, rfl⟩

/-- C12: the usage id 0x1E0 is not one of the eight recognised ids, yet
`get_luna_state` passes it through the `uint8_t` parameter of
`usage_to_mod_bit`, where it becomes 0xE0: a press of it from the initial
state sets the left-control bit, so the snapshot changes and left control
shows as held without any key event for left control; and a release of it
after a press of left control clears the bit although the most recent key
event for left control was a press. -/
theorem C12_wide_usage_id_aliases_modifier :
    0x1E0 ∉ modifier_usages ∧
    get_luna_state (.keycode_state_changed HID_USAGE_KEY 0x1E0 true) ⟨0, 0, 0⟩
      = ⟨0, MY_MOD_LCTRL, 0⟩ ∧
    last_key_event HID_USAGE_KEY_LEFT_CONTROL
      [.keycode_state_changed HID_USAGE_KEY 0x1E0 true] = none ∧
    ¬ key_tracking_holds [.keycode_state_changed HID_USAGE_KEY 0x1E0 true] ∧
    last_key_event HID_USAGE_KEY_LEFT_CONTROL
      [.keycode_state_changed HID_USAGE_KEY 0xE0 true,
       .keycode_state_changed HID_USAGE_KEY 0x1E0 false] = some true ∧
    (feed ⟨0, 0, 0⟩
      [.keycode_state_changed HID_USAGE_KEY 0xE0 true,
       .keycode_state_changed HID_USAGE_KEY 0x1E0 false]).local_mod_bits = 0 ∧
    ¬ key_tracking_holds
      [.keycode_state_changed HID_USAGE_KEY 0xE0 true,
       .keycode_state_changed HID_USAGE_KEY 0x1E0 false] := by
  decide

end NiceOled
